import Mathlib

/-!
# twitch-streamer: a shallow embedding of `source/Main.c`

The program wires a GStreamer pipeline for three video files, optionally
streaming the mixed result to an RTMP endpoint.  The media engine (GStreamer),
the file system and the process environment are external: their answers are
collected in an `Engine` record of oracles, and every call the program makes to
them is recorded, in program order, in a trace of `Op` values.

Conventions of the embedding:

* a C string is the list of its `char`s up to the terminating NUL (`CStr`);
* a pointer is `Option Nat`, `none` being `NULL`;
* a C array of `MAX_SOURCES` elements is a function on `Nat` of which only the
  indices below `MAX_SOURCES` are used;
* `snprintf (buf, size, ...)` keeps the first `size - 1` chars of the formatted text;
* a function that mutates `ApplicationContext* data` returns the new context.
-/

namespace TwitchStreamer

/-! ## Constants (Main.c 9-21, linux/limits.h) -/

/-- A C string: its chars before the terminating NUL. -/
abbrev CStr := List Char

/-- A `GstElement*` (also used for any `GstObject*`); `none` is `NULL`. -/
abbrev GstElementPtr := Option Nat

/-- A `GstPad*`; `none` is `NULL`. -/
abbrev GstPadPtr := Option Nat

/-- A `GstCaps*`; `none` is `NULL`. -/
abbrev GstCapsPtr := Option Nat

/-- Main.c 12. -/
def MAX_SOURCES : Nat := 3

/-- Main.c 15. -/
def AUDIO_FROM_SOURCE_INDEX : Nat := 0

/-- Main.c 18. -/
def OUTPUT_VIDEO_WIDTH : Nat := 1280

/-- Main.c 19. -/
def OUTPUT_VIDEO_HEIGHT : Nat := 720

/-- Main.c 21. -/
def TWITCH_URL_PREFIX : CStr := "rtmp://live.justin.tv/app".toList

/-- The value of `PATH_MAX` in linux/limits.h. -/
def PATH_MAX : Nat := 4096

/-- The value of `GST_SECOND` (nanoseconds per second). -/
def GST_SECOND : Nat := 1000000000

/-- The text `snprintf` leaves in a buffer of `size` bytes when the formatted
text is `s`: at most `size - 1` chars, the last byte being the NUL. -/
def snprintf (size : Nat) (s : CStr) : CStr := s.take (size - 1)

/-- The rendering of `%i` for a non-negative loop index. -/
def fmt_i (i : Nat) : CStr := Nat.toDigits 10 i

/-- GLib's `g_str_has_prefix (str, prefix)`. -/
def g_str_has_prefix (str pre : CStr) : Bool := pre.isPrefixOf str

/-! ## Engine values -/

/-- The pipeline states of `GstState` that the program names. -/
inductive GstState where
  | VOID_PENDING
  | NULL
  | READY
  | PAUSED
  | PLAYING
  deriving DecidableEq, Repr

/-- The type `GstStateChangeReturn`. -/
inductive GstStateChangeReturn where
  | FAILURE
  | SUCCESS
  | ASYNC
  | NO_PREROLL
  deriving DecidableEq, Repr

/-- The class of a bus message, `GST_MESSAGE_TYPE (msg)`: the three classes the
program filters on, and `OTHER` for every other class. -/
inductive GstMessageType where
  | ERROR
  | EOS
  | STATE_CHANGED
  | OTHER
  deriving DecidableEq, Repr

/-- What the program reads of a `GstMessage`. -/
structure GstMessage where
  /-- Field read by `GST_MESSAGE_TYPE (msg)`. -/
  type : GstMessageType
  /-- Field read by `GST_MESSAGE_SRC (msg)`. -/
  src : GstElementPtr
  /-- Field read by `GST_OBJECT_NAME (msg->src)`. -/
  src_name : CStr
  /-- Field `err->message` of `gst_message_parse_error`. -/
  err_message : CStr
  /-- Field `debug_info` of `gst_message_parse_error` (may be `NULL`). -/
  debug_info : Option CStr
  /-- Field `old_state` of `gst_message_parse_state_changed`. -/
  old_state : GstState
  /-- Field `new_state` of `gst_message_parse_state_changed`. -/
  new_state : GstState
  deriving DecidableEq, Repr

/-- The text of `gst_element_state_get_name`. -/
def gst_element_state_get_name : GstState → CStr
  | .VOID_PENDING => "VOID_PENDING".toList
  | .NULL => "NULL".toList
  | .READY => "READY".toList
  | .PAUSED => "PAUSED".toList
  | .PLAYING => "PLAYING".toList

/-- A property value passed to `g_object_set`. -/
inductive GValue where
  | str (s : CStr)
  | int (n : Int)
  deriving DecidableEq, Repr

/-- One observable action of the program: a call into GStreamer or a line of
output.  The trace of a run is the list of these in program order. -/
inductive Op where
  | g_print (text : CStr)
  | g_printerr (text : CStr)
  | gst_init
  | gst_element_factory_make (factory name : CStr)
  | gst_pipeline_new (name : CStr)
  | g_object_set (obj : Option Nat) (property : CStr) (value : GValue)
  | gst_bin_add (bin element : GstElementPtr)
  /-- The `n`-th request (from 0) this program makes on `element` for `template`. -/
  | gst_element_get_request_pad (element : GstElementPtr) (template : CStr) (n : Nat)
  | gst_element_get_static_pad (element : GstElementPtr) (name : CStr)
  | gst_element_link_many (elements : List GstElementPtr)
  | gst_caps_from_string (text : CStr)
  | gst_element_link_pads_filtered (src : GstElementPtr) (srcpad : CStr)
      (dest : GstElementPtr) (destpad : CStr) (filter : GstCapsPtr)
  | gst_pad_link (srcpad sinkpad : GstPadPtr)
  | g_signal_connect (instance_ : GstElementPtr) (signal : CStr)
  | gst_element_set_state (element : GstElementPtr) (state : GstState)
  | gst_element_get_bus (element : GstElementPtr)
  | gst_bus_timed_pop_filtered
  | gst_message_unref
  | gst_caps_unref (caps : GstCapsPtr)
  | gst_object_unref (object : Option Nat)
  deriving DecidableEq, Repr

/-- The answers of the world outside the program: GStreamer, the file system,
the process environment, and the indeterminate contents of uninitialised
automatic storage. -/
structure Engine where
  /-- Result of `gst_element_factory_make (factory, name)`. -/
  gst_element_factory_make : CStr → CStr → GstElementPtr
  /-- Result of `gst_pipeline_new (name)`. -/
  gst_pipeline_new : CStr → GstElementPtr
  /-- The current working directory, `none` when it cannot be obtained. -/
  cwd : Option CStr
  /-- Whether `access (path, F_OK)` succeeds. -/
  access : CStr → Bool
  /-- Result of `gst_bin_add (bin, element)`. -/
  gst_bin_add : GstElementPtr → GstElementPtr → Bool
  /-- Result of the `n`-th `gst_element_get_request_pad (element, template)`. -/
  gst_element_get_request_pad : GstElementPtr → CStr → Nat → GstPadPtr
  /-- Result of `gst_element_get_static_pad (element, name)`. -/
  gst_element_get_static_pad : GstElementPtr → CStr → GstPadPtr
  /-- Result of `gst_element_link_many` on the given chain. -/
  gst_element_link_many : List GstElementPtr → Bool
  /-- Result of `gst_caps_from_string (text)`. -/
  gst_caps_from_string : CStr → GstCapsPtr
  /-- Result of `gst_element_link_pads_filtered`. -/
  gst_element_link_pads_filtered :
    GstElementPtr → CStr → GstElementPtr → CStr → GstCapsPtr → Bool
  /-- Whether `gst_pad_link (srcpad, sinkpad)` returns `GST_PAD_LINK_OK`. -/
  gst_pad_link : GstPadPtr → GstPadPtr → Bool
  /-- Result of `gst_element_set_state (pipeline, GST_STATE_PLAYING)`. -/
  set_state_playing : GstStateChangeReturn
  /-- The successive results of `gst_bus_timed_pop_filtered` (`none` is a `NULL`
  message); when they are used up the call blocks for ever. -/
  bus : List (Option GstMessage)
  /-- Result of `gst_element_get_bus (element)`. -/
  gst_element_get_bus : GstElementPtr → Option Nat
  /-- The text of `GST_PAD_NAME (pad)`. -/
  pad_name : GstPadPtr → CStr
  /-- The indeterminate initial contents of the automatic array
  `video_mixer_sink_pad` of `setup_videomixer_layout`. -/
  video_mixer_sink_pad_uninit : Nat → GstPadPtr

/-- The call `getcwd (buf, size)`: the directory when it fits in `size` bytes with
its NUL, otherwise `NULL`. -/
def getcwd (env : Engine) (size : Nat) : Option CStr :=
  match env.cwd with
  | some d => if d.length < size then some d else none
  | none => none

/-- GStreamer's `gst_bin_add_many (bin, e1, ..., NULL)`: `gst_bin_add` on each
argument up to the first `NULL`, every result being discarded. -/
def gst_bin_add_many (bin : GstElementPtr) (elements : List GstElementPtr) : List Op :=
  (elements.takeWhile Option.isSome).map (Op.gst_bin_add bin)

/-! ## The application context (Main.c 24-51) -/

/-- The struct `ApplicationContext`. -/
structure ApplicationContext where
  pipeline : GstElementPtr
  streaming_enabled : Bool
  source_paths : Nat → CStr
  twitch_api_key : CStr
  source : Nat → GstElementPtr
  audio_convert : GstElementPtr
  audio_resample : GstElementPtr
  audio_sink : Nat → GstElementPtr
  audio_tee : GstElementPtr
  stream_audio_queue : GstElementPtr
  device_audio_queue : GstElementPtr
  audio_device_sink : GstElementPtr
  voaacenc : GstElementPtr
  video_scale : Nat → GstElementPtr
  videomixer : GstElementPtr
  video_tee : GstElementPtr
  stream_video_queue : GstElementPtr
  device_video_queue : GstElementPtr
  video_device_sink : GstElementPtr
  x264enc : GstElementPtr
  flv_mux : GstElementPtr
  rtmp_sink : GstElementPtr

/-- What a function returning `int` through `ApplicationContext* data` leaves
behind: its return value, the context, and the actions it performed. -/
structure Result where
  code : Int
  data : ApplicationContext
  ops : List Op

/-! ## parse_command_line (Main.c 100-124) and print_usage (Main.c 126-134) -/

/-- The array access `argv[k]`. -/
def argvAt (argv : List CStr) (k : Nat) : CStr := argv.getD k []

/-- The function `parse_command_line`, with `argc = argv.length`. -/
def parse_command_line (argv : List CStr) (data : ApplicationContext) : Result :=
  let argc := argv.length
  if argc ≠ MAX_SOURCES + 1 ∧ argc ≠ MAX_SOURCES + 2 then
    { code := 1, data := data, ops := [] }
  else
    let streaming_enabled : Bool := decide (argc = MAX_SOURCES + 2)
    if streaming_enabled then
      { code := 0
        data := { data with
          streaming_enabled := streaming_enabled
          twitch_api_key := argvAt argv 1
          source_paths := fun i =>
            if i < MAX_SOURCES then argvAt argv (i + 2) else data.source_paths i }
        ops := [Op.g_print "Twitch streaming is enabled!\n".toList] }
    else
      { code := 0
        data := { data with
          streaming_enabled := streaming_enabled
          twitch_api_key := []
          source_paths := fun i =>
            if i < MAX_SOURCES then argvAt argv (i + 1) else data.source_paths i }
        ops := [Op.g_print
          "Twitch streaming is NOT enabled, because twitch API key was not specified!\n".toList] }

/-- The text printed by `print_usage`. -/
def usage_text : CStr :=
  ("Application to stream mixed video data to twitch.\n" ++
   "Usage:\n  ./twitch-streamer [twitch_api_key] video_path_1 video_path_2 video_path_3\n" ++
   "Examples:\n  ./twitch-streamer live_111111111_aaaabbbcccddddeeeeffffggghhhhh ../data/sintel_trailer-480p.webm " ++
   "../data/big_buck_bunny_trailer-360p.mp4 ../data/the_daily_dweebs-720p.mp4\n" ++
   "  ./twitch-streamer ../data/sintel_trailer-480p.webm ../data/big_buck_bunny_trailer-360p.mp4 " ++
   "../data/the_daily_dweebs-720p.mp4\n").toList

/-- The function `print_usage`. -/
def print_usage : List Op := [Op.g_print usage_text]

/-! ## create_pipeline_elements (Main.c 136-282) -/

/-- The calls of the element-creation block, Main.c 148-197, in program order. -/
def creation_ops (streaming_enabled : Bool) : List Op :=
  (List.range MAX_SOURCES).map
      (fun i => Op.gst_element_factory_make "uridecodebin".toList ("source_".toList ++ fmt_i i))
  ++ [Op.gst_element_factory_make "audioconvert".toList "audio_convert".toList,
      Op.gst_element_factory_make "audioresample".toList "audio_resample".toList,
      Op.gst_element_factory_make "tee".toList "audio_tee".toList]
  ++ (if streaming_enabled then
        [Op.gst_element_factory_make "voaacenc".toList "aac_encoder".toList,
         Op.gst_element_factory_make "queue".toList "stream_audio_queue".toList]
      else [])
  ++ ((List.range MAX_SOURCES).filter (fun i => i ≠ AUDIO_FROM_SOURCE_INDEX)).map
      (fun i => Op.gst_element_factory_make "fakesink".toList ("fake_audio_sink_".toList ++ fmt_i i))
  ++ [Op.gst_element_factory_make "autoaudiosink".toList "audio_device_sink".toList,
      Op.gst_element_factory_make "queue".toList "device_audio_queue".toList]
  ++ (List.range MAX_SOURCES).map
      (fun i => Op.gst_element_factory_make "videoscale".toList ("video_scale_".toList ++ fmt_i i))
  ++ [Op.gst_element_factory_make "videomixer".toList "video_mixer".toList,
      Op.gst_element_factory_make "tee".toList "video_tee".toList]
  ++ (if streaming_enabled then
        [Op.gst_element_factory_make "queue".toList "stream_video_queue".toList,
         Op.gst_element_factory_make "x264enc".toList "x264_enc".toList,
         Op.gst_element_factory_make "flvmux".toList "flv_mux".toList,
         Op.gst_element_factory_make "rtmpsink".toList "rtmp_sink".toList]
      else [])
  ++ [Op.gst_element_factory_make "queue".toList "device_video_queue".toList,
      Op.gst_element_factory_make "autovideosink".toList "video_device_sink".toList,
      Op.gst_pipeline_new "twitch-pipeline".toList]

/-- The context after the element-creation block, Main.c 148-197: every handle
is assigned, the network ones to `NULL` when streaming is disabled. -/
def create_elements (env : Engine) (data : ApplicationContext) : ApplicationContext :=
  let audio_tee := env.gst_element_factory_make "tee".toList "audio_tee".toList
  { data with
    source := fun i =>
      if i < MAX_SOURCES then
        env.gst_element_factory_make "uridecodebin".toList ("source_".toList ++ fmt_i i)
      else data.source i
    audio_convert := env.gst_element_factory_make "audioconvert".toList "audio_convert".toList
    audio_resample := env.gst_element_factory_make "audioresample".toList "audio_resample".toList
    audio_tee := audio_tee
    voaacenc :=
      if data.streaming_enabled then
        env.gst_element_factory_make "voaacenc".toList "aac_encoder".toList
      else none
    stream_audio_queue :=
      if data.streaming_enabled then
        env.gst_element_factory_make "queue".toList "stream_audio_queue".toList
      else none
    audio_sink := fun i =>
      if i < MAX_SOURCES then
        if i = AUDIO_FROM_SOURCE_INDEX then audio_tee
        else env.gst_element_factory_make "fakesink".toList ("fake_audio_sink_".toList ++ fmt_i i)
      else data.audio_sink i
    audio_device_sink :=
      env.gst_element_factory_make "autoaudiosink".toList "audio_device_sink".toList
    device_audio_queue :=
      env.gst_element_factory_make "queue".toList "device_audio_queue".toList
    video_scale := fun i =>
      if i < MAX_SOURCES then
        env.gst_element_factory_make "videoscale".toList ("video_scale_".toList ++ fmt_i i)
      else data.video_scale i
    videomixer := env.gst_element_factory_make "videomixer".toList "video_mixer".toList
    video_tee := env.gst_element_factory_make "tee".toList "video_tee".toList
    stream_video_queue :=
      if data.streaming_enabled then
        env.gst_element_factory_make "queue".toList "stream_video_queue".toList
      else none
    x264enc :=
      if data.streaming_enabled then
        env.gst_element_factory_make "x264enc".toList "x264_enc".toList
      else none
    flv_mux :=
      if data.streaming_enabled then
        env.gst_element_factory_make "flvmux".toList "flv_mux".toList
      else none
    rtmp_sink :=
      if data.streaming_enabled then
        env.gst_element_factory_make "rtmpsink".toList "rtmp_sink".toList
      else none
    device_video_queue :=
      env.gst_element_factory_make "queue".toList "device_video_queue".toList
    video_device_sink :=
      env.gst_element_factory_make "autovideosink".toList "video_device_sink".toList
    pipeline := env.gst_pipeline_new "twitch-pipeline".toList }

/-- The handles tested by the `ENSURE_INITED` lines, Main.c 203-234, in program
order, each with the text `#Y` of its macro argument. -/
def ensure_inited_list (data : ApplicationContext) : List (GstElementPtr × CStr) :=
  (List.range MAX_SOURCES).map (fun i => (data.source i, "source[i]".toList))
  ++ [(data.audio_convert, "audio_convert".toList),
      (data.audio_resample, "audio_resample".toList),
      (data.audio_tee, "audio_tee".toList)]
  ++ (if data.streaming_enabled then
        [(data.stream_audio_queue, "stream_audio_queue".toList),
         (data.voaacenc, "voaacenc".toList)]
      else [])
  ++ (List.range MAX_SOURCES).map (fun i => (data.audio_sink i, "audio_sink[i]".toList))
  ++ [(data.audio_device_sink, "audio_device_sink".toList),
      (data.device_audio_queue, "device_audio_queue".toList)]
  ++ (List.range MAX_SOURCES).map (fun i => (data.video_scale i, "video_scale[i]".toList))
  ++ [(data.videomixer, "videomixer".toList),
      (data.video_tee, "video_tee".toList)]
  ++ (if data.streaming_enabled then
        [(data.stream_video_queue, "stream_video_queue".toList),
         (data.x264enc, "x264enc".toList),
         (data.flv_mux, "flv_mux".toList),
         (data.rtmp_sink, "rtmp_sink".toList)]
      else [])
  ++ [(data.device_video_queue, "device_video_queue".toList),
      (data.video_device_sink, "video_device_sink".toList)]

/-- The macro `ENSURE_INITED` run over a list of handles: the diagnostic of the
first `NULL` one (the function then returns 1), or `none` when all are set. -/
def ENSURE_INITED : List (GstElementPtr × CStr) → Option CStr
  | [] => none
  | (x, y) :: rest =>
    if x.isNone then
      some (snprintf 255
        ("Error: pipeline element '".toList ++ y ++ "', was not created\n".toList))
    else ENSURE_INITED rest

/-- The text left in `tmp_buf` at Main.c 247-251 for source path `path`. -/
def tmp_buf (current_work_dir path : CStr) : CStr :=
  if path.head? = some '/' then snprintf PATH_MAX path
  else snprintf PATH_MAX (current_work_dir ++ "/".toList ++ path)

/-- The loop of Main.c 245-262 from index `i` with `n` iterations left: the
return value 1 when a file is missing (0 when the loop runs to its end), and
the actions performed. -/
def set_source_uris (env : Engine) (data : ApplicationContext) (current_work_dir : CStr) :
    Nat → Nat → Int × List Op
  | _, 0 => (0, [])
  | i, n + 1 =>
    let buf := tmp_buf current_work_dir (data.source_paths i)
    if env.access buf then
      let string_buf := snprintf PATH_MAX ("file://".toList ++ buf)
      let rest := set_source_uris env data current_work_dir (i + 1) n
      (rest.1,
        [Op.g_print ("Loading file: '".toList ++ buf ++ "'\n".toList),
         Op.g_object_set (data.source i) "uri".toList (GValue.str string_buf)] ++ rest.2)
    else
      (1, [Op.g_printerr ("Error: file '".toList ++ buf ++ "' does not exist!\n".toList)])

/-- The property assignments of the streaming branch, Main.c 264-279. -/
def streaming_properties (data : ApplicationContext) : List Op :=
  [Op.g_object_set data.stream_audio_queue "leaky".toList (GValue.int 2),
   Op.g_object_set data.stream_audio_queue "max-size-time".toList (GValue.int (5 * GST_SECOND)),
   Op.g_object_set data.stream_video_queue "leaky".toList (GValue.int 2),
   Op.g_object_set data.stream_video_queue "max-size-time".toList (GValue.int (5 * GST_SECOND)),
   Op.g_object_set data.flv_mux "streamable".toList (GValue.int 1),
   Op.g_object_set data.x264enc "bitrate".toList (GValue.int 768),
   Op.g_object_set data.x264enc "speed-preset".toList (GValue.int 4),
   Op.g_object_set data.x264enc "qp-min".toList (GValue.int 30),
   Op.g_object_set data.x264enc "tune".toList (GValue.int 4),
   Op.g_object_set data.rtmp_sink "location".toList
     (GValue.str (snprintf (PATH_MAX + 1024)
       (TWITCH_URL_PREFIX ++ "/".toList ++ data.twitch_api_key)))]

/-- The function `create_pipeline_elements`. -/
def create_pipeline_elements (env : Engine) (data0 : ApplicationContext) : Result :=
  let data := create_elements env data0
  let made := creation_ops data0.streaming_enabled
  if data.pipeline.isNone then
    { code := 1, data := data,
      ops := made ++ [Op.g_printerr "Error: failed to create pipeline.\n".toList] }
  else
    match ENSURE_INITED (ensure_inited_list data) with
    | some diagnostic =>
      { code := 1, data := data, ops := made ++ [Op.g_printerr diagnostic] }
    | none =>
      match getcwd env PATH_MAX with
      | none =>
        { code := 1, data := data,
          ops := made ++ [Op.g_printerr "Error: getcwd() error".toList] }
      | some current_work_dir =>
        let cwd_line :=
          Op.g_print ("Current working dir: ".toList ++ current_work_dir ++ "\n".toList)
        let uris := set_source_uris env data current_work_dir 0 MAX_SOURCES
        if uris.1 ≠ 0 then
          { code := 1, data := data, ops := made ++ [cwd_line] ++ uris.2 }
        else
          { code := 0, data := data,
            ops := made ++ [cwd_line] ++ uris.2 ++
              (if data.streaming_enabled then streaming_properties data else []) }

/-! ## add_elements_to_pipeline (Main.c 284-336) -/

/-- One of the three checked insertion loops of Main.c 287-309, from index `i`
with `n` iterations left: `elem i` is inserted unless `skip i`; `what` is the
text of the diagnostic before the index. -/
def add_loop (env : Engine) (pipeline : GstElementPtr) (elem : Nat → GstElementPtr)
    (skip : Nat → Bool) (what : CStr) : Nat → Nat → Int × List Op
  | _, 0 => (0, [])
  | i, n + 1 =>
    if skip i then add_loop env pipeline elem skip what (i + 1) n
    else if env.gst_bin_add pipeline (elem i) then
      let rest := add_loop env pipeline elem skip what (i + 1) n
      (rest.1, Op.gst_bin_add pipeline (elem i) :: rest.2)
    else
      (1, [Op.gst_bin_add pipeline (elem i),
           Op.g_printerr ("Error: failed to add ".toList ++ what ++ " ".toList ++ fmt_i i
             ++ ".\n".toList)])

/-- The function `add_elements_to_pipeline`. -/
def add_elements_to_pipeline (env : Engine) (data : ApplicationContext) : Result :=
  let sources := add_loop env data.pipeline data.source (fun _ => false)
    "data source".toList 0 MAX_SOURCES
  if sources.1 ≠ 0 then { code := 1, data := data, ops := sources.2 }
  else
    let sinks := add_loop env data.pipeline data.audio_sink
      (fun i => decide (i = AUDIO_FROM_SOURCE_INDEX)) "audio sink".toList 0 MAX_SOURCES
    if sinks.1 ≠ 0 then { code := 1, data := data, ops := sources.2 ++ sinks.2 }
    else
      let scales := add_loop env data.pipeline data.video_scale (fun _ => false)
        "video scale".toList 0 MAX_SOURCES
      if scales.1 ≠ 0 then
        { code := 1, data := data, ops := sources.2 ++ sinks.2 ++ scales.2 }
      else
        { code := 0, data := data,
          ops := sources.2 ++ sinks.2 ++ scales.2
            ++ gst_bin_add_many data.pipeline
                [data.audio_convert, data.audio_resample, data.audio_device_sink,
                 data.audio_tee, data.device_audio_queue, data.videomixer,
                 data.video_tee, data.device_video_queue, data.video_device_sink]
            ++ (if data.streaming_enabled then
                  gst_bin_add_many data.pipeline
                    [data.stream_audio_queue, data.voaacenc, data.stream_video_queue,
                     data.flv_mux, data.x264enc, data.rtmp_sink]
                else []) }

/-! ## setup_videomixer_layout (Main.c 338-372) -/

/-- The request loop of Main.c 344-353 from index `i` with `n` iterations left,
on the local array `pads`: the value of `result`, the array, and the actions. -/
def request_mixer_pads (env : Engine) (videomixer : GstElementPtr) :
    (Nat → GstPadPtr) → Nat → Nat → Int × (Nat → GstPadPtr) × List Op
  | pads, _, 0 => (0, pads, [])
  | pads, i, n + 1 =>
    let pad := env.gst_element_get_request_pad videomixer "sink_%u".toList i
    let pads1 := Function.update pads i pad
    if pad.isNone then
      (1, pads1,
        [Op.gst_element_get_request_pad videomixer "sink_%u".toList i,
         Op.g_printerr ("Error: failed to get pad ".toList ++ fmt_i i
           ++ " from video mixer.\n".toList)])
    else
      let rest := request_mixer_pads env videomixer pads1 (i + 1) n
      (rest.1, rest.2.1,
        [Op.gst_element_get_request_pad videomixer "sink_%u".toList i,
         Op.g_print ("Requested pad from videomixer: ".toList ++ env.pad_name pad
           ++ "\n".toList)] ++ rest.2.2)

/-- The placement block of Main.c 355-362. -/
def layout_ops (videomixer : GstElementPtr) (pads : Nat → GstPadPtr) : List Op :=
  [Op.g_object_set videomixer "name".toList (GValue.str "mix".toList),
   Op.g_object_set videomixer "background".toList (GValue.int 1),
   Op.g_object_set (pads 0) "xpos".toList (GValue.int 0),
   Op.g_object_set (pads 0) "ypos".toList (GValue.int 0),
   Op.g_object_set (pads 1) "xpos".toList (GValue.int (OUTPUT_VIDEO_WIDTH / 2 : Nat)),
   Op.g_object_set (pads 1) "ypos".toList (GValue.int 0),
   Op.g_object_set (pads 2) "xpos".toList (GValue.int (OUTPUT_VIDEO_WIDTH / 4 : Nat)),
   Op.g_object_set (pads 2) "ypos".toList (GValue.int (OUTPUT_VIDEO_HEIGHT / 2 : Nat))]

/-- The release loop at the `exit` label, Main.c 364-369. -/
def unref_mixer_pads (pads : Nat → GstPadPtr) : List Op :=
  ((List.range MAX_SOURCES).filter (fun i => (pads i).isSome)).map
    (fun i => Op.gst_object_unref (pads i))

/-- The function `setup_videomixer_layout`. -/
def setup_videomixer_layout (env : Engine) (data : ApplicationContext) : Result :=
  let requested :=
    request_mixer_pads env data.videomixer env.video_mixer_sink_pad_uninit 0 MAX_SOURCES
  if requested.1 ≠ 0 then
    { code := 1, data := data, ops := requested.2.2 ++ unref_mixer_pads requested.2.1 }
  else
    { code := 0, data := data,
      ops := requested.2.2 ++ layout_ops data.videomixer requested.2.1
        ++ unref_mixer_pads requested.2.1 }

/-! ## link_pipeline_elements (Main.c 374-515) -/

/-- The eight local pad variables of `link_pipeline_elements`. -/
structure LinkPads where
  audio_tee_src_pad_1 : GstPadPtr := none
  audio_tee_src_pad_2 : GstPadPtr := none
  video_tee_src_pad_1 : GstPadPtr := none
  video_tee_src_pad_2 : GstPadPtr := none
  stream_audio_queue_snk_pad : GstPadPtr := none
  device_audio_queue_snk_pad : GstPadPtr := none
  stream_video_queue_snk_pad : GstPadPtr := none
  device_video_queue_snk_pad : GstPadPtr := none

/-- One fallible step of a function whose failures set `result = 1`, print a
diagnostic and jump to the `exit` label: `ops` are the calls of the step, `ok`
their outcome, `next` the rest of the body. -/
def step (ok : Bool) (ops : List Op) (diagnostic : CStr) (next : Int × List Op) :
    Int × List Op :=
  if ok then (next.1, ops ++ next.2) else (1, ops ++ [Op.g_printerr diagnostic])

/-- The text formatted into `string_buf` at Main.c 398-402. -/
def video_scale_caps_text : CStr :=
  snprintf 255 ("video/x-raw,width=".toList ++ fmt_i (OUTPUT_VIDEO_WIDTH / 2)
    ++ ",height=".toList ++ fmt_i (OUTPUT_VIDEO_HEIGHT / 2))

/-- The loop of Main.c 410-418 from index `i` with `n` iterations left, ending
in `next`. -/
def link_scalers (env : Engine) (data : ApplicationContext) (caps : GstCapsPtr)
    (next : Int × List Op) : Nat → Nat → Int × List Op
  | _, 0 => next
  | i, n + 1 =>
    let destpad := snprintf 255 ("sink_".toList ++ fmt_i i)
    step (env.gst_element_link_pads_filtered (data.video_scale i) "src".toList
            data.videomixer destpad caps)
      [Op.gst_element_link_pads_filtered (data.video_scale i) "src".toList
            data.videomixer destpad caps]
      ("Error: failed to link video ".toList ++ fmt_i i ++ " with rescale filter.\n".toList)
      (link_scalers env data caps next (i + 1) n)

/-- The body of Main.c 392-426, ending in `next`: the audio chain, the scalers
into the mixer through the caps filter, the mixer into its tee. -/
def link_chains (env : Engine) (data : ApplicationContext) (next : Int × List Op) :
    Int × List Op :=
  step (env.gst_element_link_many [data.audio_convert, data.audio_resample, data.audio_tee])
    [Op.gst_element_link_many [data.audio_convert, data.audio_resample, data.audio_tee]]
    "Error: audio elements could not be linked.\n".toList <|
  let video_scale_caps := env.gst_caps_from_string video_scale_caps_text
  step video_scale_caps.isSome
    [Op.gst_caps_from_string video_scale_caps_text]
    "Error: failed to create scale filter caps.\n".toList <|
  link_scalers env data video_scale_caps
    ((fun rest : Int × List Op => (rest.1, Op.gst_caps_unref video_scale_caps :: rest.2))
      (step (env.gst_element_link_many [data.videomixer, data.video_tee])
        [Op.gst_element_link_many [data.videomixer, data.video_tee]]
        "Error: mixer output elements could not be linked.\n".toList next))
    0 MAX_SOURCES

/-- The pad variables after Main.c 428-440. -/
def fanout_pads (env : Engine) (data : ApplicationContext) : LinkPads :=
  { audio_tee_src_pad_1 := env.gst_element_get_request_pad data.audio_tee "src_%u".toList 0
    video_tee_src_pad_1 := env.gst_element_get_request_pad data.video_tee "src_%u".toList 0
    audio_tee_src_pad_2 :=
      if data.streaming_enabled then
        env.gst_element_get_request_pad data.audio_tee "src_%u".toList 1
      else none
    video_tee_src_pad_2 :=
      if data.streaming_enabled then
        env.gst_element_get_request_pad data.video_tee "src_%u".toList 1
      else none
    device_audio_queue_snk_pad :=
      env.gst_element_get_static_pad data.device_audio_queue "sink".toList
    device_video_queue_snk_pad :=
      env.gst_element_get_static_pad data.device_video_queue "sink".toList
    stream_audio_queue_snk_pad :=
      if data.streaming_enabled then
        env.gst_element_get_static_pad data.stream_audio_queue "sink".toList
      else none
    stream_video_queue_snk_pad :=
      if data.streaming_enabled then
        env.gst_element_get_static_pad data.stream_video_queue "sink".toList
      else none }

/-- The calls of Main.c 428-440 in program order. -/
def fanout_pad_ops (data : ApplicationContext) : List Op :=
  [Op.gst_element_get_request_pad data.audio_tee "src_%u".toList 0,
   Op.gst_element_get_request_pad data.video_tee "src_%u".toList 0]
  ++ (if data.streaming_enabled then
        [Op.gst_element_get_request_pad data.audio_tee "src_%u".toList 1,
         Op.gst_element_get_request_pad data.video_tee "src_%u".toList 1]
      else [])
  ++ [Op.gst_element_get_static_pad data.device_audio_queue "sink".toList,
      Op.gst_element_get_static_pad data.device_video_queue "sink".toList]
  ++ (if data.streaming_enabled then
        [Op.gst_element_get_static_pad data.stream_audio_queue "sink".toList,
         Op.gst_element_get_static_pad data.stream_video_queue "sink".toList]
      else [])

/-- The outcome and calls of `gst_pad_link (a, b) != OK || gst_pad_link (c, d) != OK`:
the second link is attempted only when the first succeeded. -/
def link_both (env : Engine) (a b c d : GstPadPtr) : Bool × List Op :=
  if env.gst_pad_link a b then
    (env.gst_pad_link c d, [Op.gst_pad_link a b, Op.gst_pad_link c d])
  else (false, [Op.gst_pad_link a b])

/-- The streaming branch of Main.c 449-468, ending in `next`. -/
def link_streaming (env : Engine) (data : ApplicationContext) (pads : LinkPads)
    (next : Int × List Op) : Int × List Op :=
  let both := link_both env pads.audio_tee_src_pad_2 pads.stream_audio_queue_snk_pad
    pads.video_tee_src_pad_2 pads.stream_video_queue_snk_pad
  step both.1 both.2 "Error: tee could not be linked with streaming sinks\n".toList <|
  step (env.gst_element_link_many [data.stream_audio_queue, data.voaacenc, data.flv_mux])
    [Op.gst_element_link_many [data.stream_audio_queue, data.voaacenc, data.flv_mux]]
    "Error: audio FLV elements could not be linked.\n".toList <|
  step (env.gst_element_link_many
          [data.stream_video_queue, data.x264enc, data.flv_mux, data.rtmp_sink])
    [Op.gst_element_link_many
          [data.stream_video_queue, data.x264enc, data.flv_mux, data.rtmp_sink]]
    "Error: video FLV elements could not be linked.\n".toList next

/-- The body of Main.c 442-485: the tee outputs into the queues, the queues
into their sinks, and the registration of the pad-added handler. -/
def link_fanout (env : Engine) (data : ApplicationContext) (pads : LinkPads) :
    Int × List Op :=
  let both := link_both env pads.audio_tee_src_pad_1 pads.device_audio_queue_snk_pad
    pads.video_tee_src_pad_1 pads.device_video_queue_snk_pad
  let device_links : Int × List Op :=
    step (env.gst_element_link_many [data.device_audio_queue, data.audio_device_sink])
      [Op.gst_element_link_many [data.device_audio_queue, data.audio_device_sink]]
      "Error: device audio elements could not be linked.\n".toList <|
    step (env.gst_element_link_many [data.device_video_queue, data.video_device_sink])
      [Op.gst_element_link_many [data.device_video_queue, data.video_device_sink]]
      "Error: device video elements could not be linked.\n".toList
      (0, (List.range MAX_SOURCES).map
            (fun i => Op.g_signal_connect (data.source i) "pad-added".toList))
  step both.1 both.2 "Error: tee could not be linked with device sinks\n".toList
    (if data.streaming_enabled then link_streaming env data pads device_links
     else device_links)

/-- The releases at the `exit` label, Main.c 488-512. -/
def unref_link_pads (pads : LinkPads) : List Op :=
  ([pads.audio_tee_src_pad_1, pads.audio_tee_src_pad_2, pads.video_tee_src_pad_1,
    pads.video_tee_src_pad_2, pads.stream_audio_queue_snk_pad,
    pads.device_audio_queue_snk_pad, pads.stream_video_queue_snk_pad,
    pads.device_video_queue_snk_pad].filter Option.isSome).map Op.gst_object_unref

/-- The function `link_pipeline_elements`.  A failure before Main.c 428 reaches
the `exit` label with every pad variable still `NULL`. -/
def link_pipeline_elements (env : Engine) (data : ApplicationContext) : Result :=
  let pads := fanout_pads env data
  let tail : Int × List Op :=
    ((fun rest : Int × List Op =>
        (rest.1, fanout_pad_ops data ++ rest.2 ++ unref_link_pads pads))
      (link_fanout env data pads))
  let all := link_chains env data tail
  { code := all.1, data := data, ops := all.2 }

/-! ## create_pipeline (Main.c 517-539) -/

/-- The function `create_pipeline`. -/
def create_pipeline (env : Engine) (data0 : ApplicationContext) : Result :=
  let created := create_pipeline_elements env data0
  if created.code ≠ 0 then
    { code := 1, data := created.data,
      ops := created.ops ++ [Op.g_printerr "Error: failed to create pipeline elements\n".toList] }
  else
    let added := add_elements_to_pipeline env created.data
    if added.code ≠ 0 then
      { code := 1, data := added.data,
        ops := created.ops ++ added.ops
          ++ [Op.g_printerr "Error: failed to add elements to pipeline\n".toList] }
    else
      let laid := setup_videomixer_layout env added.data
      if laid.code ≠ 0 then
        { code := 1, data := laid.data,
          ops := created.ops ++ added.ops ++ laid.ops
            ++ [Op.g_printerr "Error: failed to setup videomixer layout\n".toList] }
      else
        let linked := link_pipeline_elements env laid.data
        if linked.code ≠ 0 then
          { code := 1, data := linked.data,
            ops := created.ops ++ added.ops ++ laid.ops ++ linked.ops
              ++ [Op.g_printerr "Error: failed to link pipeline\n".toList] }
        else
          { code := 0, data := linked.data,
            ops := created.ops ++ added.ops ++ laid.ops ++ linked.ops }

/-! ## run_pipeline (Main.c 541-600) -/

/-- How a call ends: it returns a value, or it never returns because it is
blocked for ever in `gst_bus_timed_pop_filtered` on a bus that delivers nothing more. -/
inductive Outcome where
  | returned (code : Int)
  | blocked
  deriving DecidableEq, Repr

/-- What the bus loop leaves behind. -/
structure LoopResult where
  /-- Whether `terminate` became `TRUE`; `false` when the loop is blocked. -/
  terminated : Bool
  /-- The actions of the loop. -/
  ops : List Op
  /-- The bus results not consumed. -/
  remaining : List (Option GstMessage)

/-- The actions of one pass through the `switch` of Main.c 565-593 on a
non-`NULL` message, and the value it leaves in `terminate`. -/
def handle_message (pipeline : GstElementPtr) (msg : GstMessage) : Bool × List Op :=
  match msg.type with
  | .ERROR =>
    (true,
      [Op.g_printerr ("Error received from element ".toList ++ msg.src_name ++ ": ".toList
          ++ msg.err_message ++ "\n".toList),
       Op.g_printerr ("Debugging information: ".toList
          ++ (match msg.debug_info with
              | some text => text
              | none => "none".toList) ++ "\n".toList),
       Op.gst_message_unref])
  | .EOS => (true, [Op.g_print "End-Of-Stream reached.\n".toList, Op.gst_message_unref])
  | .STATE_CHANGED =>
    (false,
      (if msg.src = pipeline then
        [Op.g_print ("Pipeline state changed from ".toList
          ++ gst_element_state_get_name msg.old_state ++ " to ".toList
          ++ gst_element_state_get_name msg.new_state ++ ":\n".toList)]
       else []) ++ [Op.gst_message_unref])
  | .OTHER =>
    (false, [Op.g_printerr "Error: unexpected message received.\n".toList, Op.gst_message_unref])

/-- The `do ... while (!terminate)` loop of Main.c 556-595 over the results the
bus still has to deliver. -/
def bus_loop (pipeline : GstElementPtr) : List (Option GstMessage) → LoopResult
  | [] => { terminated := false, ops := [Op.gst_bus_timed_pop_filtered], remaining := [] }
  | none :: rest =>
    let later := bus_loop pipeline rest
    { later with ops := Op.gst_bus_timed_pop_filtered :: later.ops }
  | some msg :: rest =>
    let handled := handle_message pipeline msg
    if handled.1 then
      { terminated := true, ops := Op.gst_bus_timed_pop_filtered :: handled.2, remaining := rest }
    else
      let later := bus_loop pipeline rest
      { later with ops := Op.gst_bus_timed_pop_filtered :: handled.2 ++ later.ops }

/-- What `run_pipeline` and `main` leave behind. -/
structure RunResult where
  outcome : Outcome
  ops : List Op

/-- The function `run_pipeline`. -/
def run_pipeline (env : Engine) (data : ApplicationContext) : RunResult :=
  if env.set_state_playing = GstStateChangeReturn.FAILURE then
    { outcome := Outcome.returned 1,
      ops := [Op.gst_element_set_state data.pipeline GstState.PLAYING,
              Op.g_printerr "Error: unable to set the pipeline to the playing state.\n".toList] }
  else
    let looped := bus_loop data.pipeline env.bus
    if looped.terminated then
      { outcome := Outcome.returned 0,
        ops := [Op.gst_element_set_state data.pipeline GstState.PLAYING,
                Op.gst_element_get_bus data.pipeline] ++ looped.ops
               ++ [Op.gst_object_unref (env.gst_element_get_bus data.pipeline)] }
    else
      { outcome := Outcome.blocked,
        ops := [Op.gst_element_set_state data.pipeline GstState.PLAYING,
                Op.gst_element_get_bus data.pipeline] ++ looped.ops }

/-! ## free_resources (Main.c 602-607) -/

/-- The function `free_resources`. -/
def free_resources (data : ApplicationContext) : List Op :=
  if data.pipeline.isSome then
    [Op.gst_element_set_state data.pipeline GstState.NULL,
     Op.gst_object_unref data.pipeline]
  else []

/-! ## main (Main.c 62-98) -/

/-- The function `main`, with `argc = argv.length`; `data` is the indeterminate
initial content of the automatic variable of that name. -/
def main (env : Engine) (argv : List CStr) (data : ApplicationContext) : RunResult :=
  let parsed := parse_command_line argv data
  if parsed.code ≠ 0 then
    { outcome := Outcome.returned 1,
      ops := [Op.g_print "Parsing command line...\n".toList] ++ parsed.ops ++ print_usage
        ++ free_resources parsed.data }
  else
    let created := create_pipeline env parsed.data
    let before_run : List Op :=
      [Op.g_print "Parsing command line...\n".toList] ++ parsed.ops
      ++ [Op.g_print "Done.\n".toList, Op.g_print "Initializing GStreamer...\n".toList,
          Op.gst_init, Op.g_print "Done.\n".toList,
          Op.g_print "Creating pipeline...\n".toList]
      ++ created.ops
    if created.code ≠ 0 then
      { outcome := Outcome.returned 1,
        ops := before_run ++ [Op.g_printerr "Error: unable to setup pipeline\n".toList]
          ++ free_resources created.data }
    else
      let run := run_pipeline env created.data
      let running : List Op :=
        before_run
        ++ [Op.g_print "Done.\n".toList, Op.g_print "Running pipeline...\n".toList] ++ run.ops
      match run.outcome with
      | Outcome.blocked => { outcome := Outcome.blocked, ops := running }
      | Outcome.returned code =>
        if code ≠ 0 then
          { outcome := Outcome.returned 1,
            ops := running ++ [Op.g_printerr "Error: unable to run pipeline\n".toList]
              ++ free_resources created.data }
        else
          { outcome := Outcome.returned 0,
            ops := running ++ [Op.g_print "Done.\n".toList] ++ free_resources created.data }

/-! ## pad_added_handler (Main.c 609-667) -/

/-- The arguments the engine passes to the pad-added callback, with what the
callback reads through them. -/
structure PadAdded where
  /-- The argument `src`. -/
  src : GstElementPtr
  /-- The text of `GST_ELEMENT_NAME (src)`. -/
  src_name : CStr
  /-- The argument `new_pad`. -/
  new_pad : GstPadPtr
  /-- The text of `GST_PAD_NAME (new_pad)`. -/
  new_pad_name : CStr
  /-- The result of `gst_pad_get_current_caps (new_pad)`. -/
  new_pad_caps : GstCapsPtr
  /-- The name of the first structure of those caps. -/
  new_pad_type : CStr

/-- The search `for (i = 0; i < MAX_SOURCES; ++i) if (data->source[i] == src) ... break`
of Main.c 627-636 and 639-644, from index `i` with `n` iterations left: the
index at which the body runs, if any. -/
def find_source (data : ApplicationContext) (src : GstElementPtr) : Nat → Nat → Option Nat
  | _, 0 => none
  | i, n + 1 => if data.source i = src then some i else find_source data src (i + 1) n

/-- The element whose static pad `sink` is fetched at Main.c 624-645: `none`
when no `gst_element_get_static_pad` call is made. -/
def link_target (data : ApplicationContext) (src : GstElementPtr) (new_pad_type : CStr) :
    Option GstElementPtr :=
  if g_str_has_prefix new_pad_type "audio/x-raw".toList then
    match find_source data src 0 MAX_SOURCES with
    | some i =>
      if i = AUDIO_FROM_SOURCE_INDEX then some data.audio_convert
      else some (data.audio_sink i)
    | none => none
  else if g_str_has_prefix new_pad_type "video/x-raw".toList then
    match find_source data src 0 MAX_SOURCES with
    | some i => some (data.video_scale i)
    | none => none
  else none

/-- The function `pad_added_handler`.  It assigns nothing through `data`. -/
def pad_added_handler (env : Engine) (a : PadAdded) (data : ApplicationContext) :
    ApplicationContext × List Op :=
  let received :=
    Op.g_print ("Received new pad '".toList ++ a.new_pad_name ++ "' from '".toList
      ++ a.src_name ++ "':\n".toList)
  let target := link_target data a.src a.new_pad_type
  let fetch : List Op :=
    match target with
    | some element => [Op.gst_element_get_static_pad element "sink".toList]
    | none => []
  let sink_pad : GstPadPtr :=
    match target with
    | some element => env.gst_element_get_static_pad element "sink".toList
    | none => none
  let caps_unref : List Op :=
    if a.new_pad_caps.isSome then [Op.gst_caps_unref a.new_pad_caps] else []
  if sink_pad.isNone then
    (data,
      [received] ++ fetch
      ++ [Op.g_printerr "Error: failed to get sink pad in pad_added_handler".toList]
      ++ caps_unref)
  else
    (data,
      [received] ++ fetch
      ++ [Op.gst_pad_link a.new_pad sink_pad,
          if env.gst_pad_link a.new_pad sink_pad then
            Op.g_print ("Link succeeded (type '".toList ++ a.new_pad_type ++ "').\n".toList)
          else
            Op.g_print ("Type is '".toList ++ a.new_pad_type ++ "' but link failed.\n".toList),
          Op.gst_object_unref sink_pad]
      ++ caps_unref)

/-! ## Positional arguments and sample runs -/

/-- The positional arguments of an argument vector: all but `argv[0]`. -/
def positional (argv : List CStr) : List CStr := argv.drop 1

/-- The names the program gives to the elements it creates. -/
def sample_names : List CStr :=
  ["source_0", "source_1", "source_2", "audio_convert", "audio_resample", "audio_tee",
   "aac_encoder", "stream_audio_queue", "fake_audio_sink_1", "fake_audio_sink_2",
   "audio_device_sink", "device_audio_queue", "video_scale_0", "video_scale_1",
   "video_scale_2", "video_mixer", "video_tee", "stream_video_queue", "x264_enc",
   "flv_mux", "rtmp_sink", "device_video_queue", "video_device_sink"].map String.toList

/-- A message of class `type` posted by object `src`. -/
def sample_message (type : GstMessageType) (src : GstElementPtr) : GstMessage :=
  { type := type, src := src, src_name := "source_1".toList,
    err_message := "Internal data stream error.".toList, debug_info := none,
    old_state := GstState.READY, new_state := GstState.PAUSED }

/-- An engine in which every call succeeds: each element gets its own handle
(1 + the position of its name in `sample_names`), the pipeline is object 100,
every file exists, every link is made, and the bus delivers a state change of
the pipeline, a state change of a child, and then end-of-stream. -/
def sample_engine : Engine :=
  { gst_element_factory_make := fun _ name => some (sample_names.indexOf name + 1)
    gst_pipeline_new := fun _ => some 100
    cwd := some "/home/user".toList
    access := fun _ => true
    gst_bin_add := fun _ _ => true
    gst_element_get_request_pad := fun element _ n => element.map (fun h => 1000 + 10 * h + n)
    gst_element_get_static_pad := fun element _ => element.map (fun h => 2000 + h)
    gst_element_link_many := fun _ => true
    gst_caps_from_string := fun _ => some 3000
    gst_element_link_pads_filtered := fun _ _ _ _ _ => true
    gst_pad_link := fun _ _ => true
    set_state_playing := GstStateChangeReturn.ASYNC
    bus := [some (sample_message GstMessageType.STATE_CHANGED (some 100)),
            some (sample_message GstMessageType.STATE_CHANGED (some 1)),
            some (sample_message GstMessageType.EOS (some 100))]
    gst_element_get_bus := fun _ => some 4000
    pad_name := fun _ => "sink".toList
    video_mixer_sink_pad_uninit := fun _ => none }

/-- An indeterminate initial context: whatever the stack held. -/
def sample_uninit : ApplicationContext :=
  { pipeline := some 77, streaming_enabled := true, source_paths := fun _ => [],
    twitch_api_key := [], source := fun _ => some 78, audio_convert := none,
    audio_resample := some 5, audio_sink := fun _ => none, audio_tee := none,
    stream_audio_queue := some 9, device_audio_queue := none, audio_device_sink := none,
    voaacenc := some 3, video_scale := fun _ => none, videomixer := none, video_tee := none,
    stream_video_queue := none, device_video_queue := none, video_device_sink := none,
    x264enc := some 4, flv_mux := none, rtmp_sink := some 8 }

/-- An argument vector with three source paths and no credential. -/
def sample_argv3 : List CStr :=
  ["./twitch-streamer", "a.webm", "/data/b.mp4", "c.mp4"].map String.toList

/-- An argument vector with a credential and three source paths. -/
def sample_argv4 : List CStr :=
  ["./twitch-streamer", "live_1_abc", "a.webm", "/data/b.mp4", "c.mp4"].map String.toList

/-- An argument vector with too few arguments. -/
def sample_argv2 : List CStr :=
  ["./twitch-streamer", "a.webm", "/data/b.mp4"].map String.toList

/-- Whether a bus result is an ERROR or END_OF_STREAM message. -/
def is_terminal : Option GstMessage → Bool
  | some msg => decide (msg.type = GstMessageType.ERROR) || decide (msg.type = GstMessageType.EOS)
  | none => false

/-- The sample engine with another sequence of bus results. -/
def sample_engine_with_bus (bus : List (Option GstMessage)) : Engine :=
  { sample_engine with bus := bus }

/-- A bus on which a child element posts an error after the pipeline changed
state, followed by results that are never read. -/
def sample_error_bus : List (Option GstMessage) :=
  [some (sample_message GstMessageType.STATE_CHANGED (some 100)),
   none,
   some (sample_message GstMessageType.OTHER (some 2)),
   some (sample_message GstMessageType.ERROR (some 2)),
   some (sample_message GstMessageType.STATE_CHANGED (some 100)),
   some (sample_message GstMessageType.EOS (some 100))]

/-- A credential of 5094 chars: one more than fits behind the URL prefix in
the 5120-byte buffer `string_buf` of `create_pipeline_elements`. -/
def long_credential : CStr := List.replicate 5094 'k'

/-- An argument vector with that credential and three source paths. -/
def long_argv : List CStr :=
  ["./twitch-streamer".toList, long_credential, "a.webm".toList, "/data/b.mp4".toList,
   "c.mp4".toList]

/-- The actions that neither create an object, nor insert one into a
container, nor request a pad, nor change or observe the state of the pipeline:
output, property assignment, linking, static pad lookup, signal registration
and release of a reference. -/
def Op.wiring : Op → Bool
  | .g_print _ => true
  | .g_printerr _ => true
  | .g_object_set _ _ _ => true
  | .gst_element_get_static_pad _ _ => true
  | .gst_element_link_many _ => true
  | .gst_caps_from_string _ => true
  | .gst_element_link_pads_filtered _ _ _ _ _ => true
  | .gst_pad_link _ _ => true
  | .g_signal_connect _ _ => true
  | .gst_caps_unref _ => true
  | .gst_object_unref _ => true
  | _ => false

/-- The units of the local-preview graph: per-source units and the shared
audio and video chains. -/
def local_units (data : ApplicationContext) : List GstElementPtr :=
  [data.source 0, data.source 1, data.source 2, data.audio_sink 1, data.audio_sink 2,
   data.video_scale 0, data.video_scale 1, data.video_scale 2,
   data.audio_convert, data.audio_resample, data.audio_device_sink, data.audio_tee,
   data.device_audio_queue, data.videomixer, data.video_tee, data.device_video_queue,
   data.video_device_sink]

/-- The units of the network sub-graph. -/
def network_units (data : ApplicationContext) : List GstElementPtr :=
  [data.stream_audio_queue, data.voaacenc, data.stream_video_queue, data.flv_mux,
   data.x264enc, data.rtmp_sink]

/-- The elements whose static pad is looked up in a trace: the consumers a
pad-added callback resolved its pad to. -/
def resolved_consumers (ops : List Op) : List GstElementPtr :=
  ops.filterMap (fun op =>
    match op with
    | Op.gst_element_get_static_pad element _ => some element
    | _ => none)

/-- A sequence of pad-added callbacks delivered in order, each to the context
left by the one before and each against whatever the engine answers at that
moment: the consumers each arrival was resolved to, and the final context. -/
def deliver : List (Engine × PadAdded) → ApplicationContext →
    List (PadAdded × List GstElementPtr) × ApplicationContext
  | [], data => ([], data)
  | (env, a) :: rest, data =>
    let handled := pad_added_handler env a data
    let later := deliver rest handled.1
    ((a, resolved_consumers handled.2) :: later.1, later.2)

/-- The context of the sample run without credential, once constructed. -/
def sample_context : ApplicationContext :=
  (create_pipeline sample_engine (parse_command_line sample_argv3 sample_uninit).data).data

/-- A pad of source 0 (handle 1) with a negotiated type of the given name. -/
def sample_pad (src : GstElementPtr) (new_pad_type : CStr) : PadAdded :=
  { src := src, src_name := "source".toList, new_pad := some 500,
    new_pad_name := "src_0".toList, new_pad_caps := some 600, new_pad_type := new_pad_type }

/-- The sample engine, except that the pipeline refuses the element
`audio_convert` (handle 4) when it is inserted. -/
def sample_engine_rejecting_audio_convert : Engine :=
  { sample_engine with gst_bin_add := fun _ element => decide (element ≠ some 4) }

/-- The absolute name of the file a source path designates: the path itself
when it starts with `/`, otherwise the path below the working directory. -/
def resolved_path (current_work_dir path : CStr) : CStr :=
  if path.head? = some '/' then path else current_work_dir ++ "/".toList ++ path

/-- The sample engine, except that the only file that exists is
`/home/user/a.webm`. -/
def sample_engine_missing_files : Engine :=
  { sample_engine with access := fun path => decide (path = "/home/user/a.webm".toList) }

/-- A source path of 5000 slashes: longer than any name the system accepts. -/
def overlong_path : CStr := List.replicate 5000 '/'

/-- An argument vector whose first source path is `overlong_path`. -/
def overlong_argv : List CStr :=
  ["./twitch-streamer".toList, overlong_path, "/data/b.mp4".toList, "/data/c.mp4".toList]

/-- The sample engine on a system where a name exists exactly when it is
shorter than `PATH_MAX` (longer names are refused with ENAMETOOLONG). -/
def sample_engine_name_too_long : Engine :=
  { sample_engine with access := fun path => decide (path.length < PATH_MAX) }

/-- Whether an action assigns a placement on the canvas: a `g_object_set` of
the property `xpos` or `ypos`. -/
def Op.placement : Op → Bool
  | .g_object_set _ property _ =>
    decide (property = "xpos".toList) || decide (property = "ypos".toList)
  | _ => false

/-- The sample engine, except that the compositor refuses its second input pad
and that the uninitialised pad array of `setup_videomixer_layout` happens to
hold the address of the pipeline (object 100) in every entry. -/
def sample_engine_mixer_refuses : Engine :=
  { sample_engine with
    gst_element_get_request_pad := fun element template n =>
      if template = "sink_%u".toList ∧ n = 1 then none
      else element.map (fun h => 1000 + 10 * h + n)
    video_mixer_sink_pad_uninit := fun _ => some 100 }

/-- A bus on which a message of an unexpected class arrives before
end-of-stream. -/
def sample_unexpected_bus : List (Option GstMessage) :=
  [some (sample_message GstMessageType.OTHER (some 2)),
   some (sample_message GstMessageType.EOS (some 100))]

/-! # Theorems -/

theorem argvAt_positional (argv : List CStr) (k : Nat) :
    argvAt (positional argv) k = argvAt argv (k + 1) := by
  cases argv <;> simp [argvAt, positional]

theorem positional_length (argv : List CStr) :
    (positional argv).length = argv.length - 1 := by
  simp [positional]

/-! ## C1: the command line -/

/-- C1. `parse_command_line` fails exactly when the number of positional
arguments is neither 3 nor 4, and `main` then returns 1 having only printed its
banner and the usage text and run `free_resources` (no element and no pipeline
is constructed). On success `streaming_enabled` holds exactly for 4 positional
arguments; the credential is then the first of them and the source paths are
the 2nd, 3rd and 4th; with 3 positional arguments the credential is empty and
the source paths are the 1st, 2nd and 3rd. -/
theorem parse_command_line_contract (env : Engine) (argv : List CStr)
    (data : ApplicationContext) :
    ((parse_command_line argv data).code ≠ 0 ↔
        ((positional argv).length ≠ 3 ∧ (positional argv).length ≠ 4))
    ∧ ((parse_command_line argv data).code ≠ 0 →
        (main env argv data).outcome = Outcome.returned 1
        ∧ (main env argv data).ops =
            [Op.g_print "Parsing command line...\n".toList, Op.g_print usage_text]
              ++ free_resources data
        ∧ (∀ name, Op.gst_pipeline_new name ∉ (main env argv data).ops)
        ∧ (∀ factory name, Op.gst_element_factory_make factory name ∉ (main env argv data).ops))
    ∧ ((parse_command_line argv data).code = 0 →
        ((parse_command_line argv data).data.streaming_enabled = true ↔
            (positional argv).length = 4)
        ∧ ((positional argv).length = 4 →
            (parse_command_line argv data).data.twitch_api_key = argvAt (positional argv) 0
            ∧ ∀ i, i < 3 →
                (parse_command_line argv data).data.source_paths i
                  = argvAt (positional argv) (i + 1))
        ∧ ((positional argv).length = 3 →
            (parse_command_line argv data).data.twitch_api_key = []
            ∧ ∀ i, i < 3 →
                (parse_command_line argv data).data.source_paths i
                  = argvAt (positional argv) i)) := by
  simp only [argvAt_positional, positional_length]
  by_cases h4 : argv.length = 4
  · have hcode : (parse_command_line argv data).code = 0 := by
      simp [parse_command_line, h4, MAX_SOURCES]
    refine ⟨by simp [hcode, h4], by simp [hcode], fun _ => ?_⟩
    simp [parse_command_line, h4, MAX_SOURCES]
    intro i hi
    simp [hi]
  · by_cases h5 : argv.length = 5
    · have hcode : (parse_command_line argv data).code = 0 := by
        simp [parse_command_line, h5, MAX_SOURCES]
      refine ⟨by simp [hcode, h5], by simp [hcode], fun _ => ?_⟩
      simp [parse_command_line, h5, MAX_SOURCES]
      intro i hi
      simp [hi]
    · have hcode : (parse_command_line argv data).code = 1 := by
        simp [parse_command_line, h4, h5, MAX_SOURCES]
      have hdata : (parse_command_line argv data).data = data := by
        simp [parse_command_line, h4, h5, MAX_SOURCES]
      have hops : (parse_command_line argv data).ops = [] := by
        simp [parse_command_line, h4, h5, MAX_SOURCES]
      have hmain : (main env argv data).ops =
          [Op.g_print "Parsing command line...\n".toList, Op.g_print usage_text]
            ++ free_resources data := by
        simp [main, hcode, hdata, hops, print_usage]
      refine ⟨?_, fun _ => ⟨by simp [main, hcode], hmain, ?_, ?_⟩, by simp [hcode]⟩
      · simp [hcode]; omega
      · intro name; rw [hmain]; unfold free_resources; split <;> simp
      · intro factory name; rw [hmain]; unfold free_resources; split <;> simp

/-- C1, at an argument vector with a credential and three paths, and at one
with too few arguments. -/
theorem parse_command_line_contract_witness :
    ((parse_command_line sample_argv4 sample_uninit).data.twitch_api_key = "live_1_abc".toList
      ∧ (parse_command_line sample_argv4 sample_uninit).data.source_paths 2 = "c.mp4".toList)
    ∧ (main sample_engine sample_argv2 sample_uninit).outcome = Outcome.returned 1 :=
  have h4 := (parse_command_line_contract sample_engine sample_argv4 sample_uninit).2.2
    (by decide)
  ⟨⟨(h4.2.1 (by decide)).1, (h4.2.1 (by decide)).2 2 (by decide)⟩,
    ((parse_command_line_contract sample_engine sample_argv2 sample_uninit).2.1
      (by decide)).1⟩

/-! ## The control loop -/

theorem handle_message_terminates (pipeline : GstElementPtr) (msg : GstMessage) :
    (handle_message pipeline msg).1 = is_terminal (some msg) := by
  unfold handle_message is_terminal
  cases h : msg.type <;> simp [h]

theorem bus_loop_until_terminal (pipeline : GstElementPtr) (pre post : List (Option GstMessage))
    (t : GstMessage) (hpre : ∀ m ∈ pre, is_terminal m = false)
    (ht : is_terminal (some t) = true) :
    (bus_loop pipeline (pre ++ some t :: post)).terminated = true
    ∧ (bus_loop pipeline (pre ++ some t :: post)).remaining = post
    ∧ (bus_loop pipeline (pre ++ some t :: post)).ops
        = (bus_loop pipeline (pre ++ [some t])).ops := by
  induction pre with
  | nil =>
    simp [bus_loop, handle_message_terminates, ht]
  | cons m pre ih =>
    have hm : is_terminal m = false := hpre m (by simp)
    have ih1 := ih (fun x hx => hpre x (by simp [hx]))
    cases m with
    | none => simp [bus_loop, ih1]
    | some msg => simp [bus_loop, handle_message_terminates, hm, ih1]

theorem bus_loop_blocks (pipeline : GstElementPtr) (bus : List (Option GstMessage))
    (hbus : ∀ m ∈ bus, is_terminal m = false) :
    (bus_loop pipeline bus).terminated = false := by
  induction bus with
  | nil => simp [bus_loop]
  | cons m bus ih =>
    have hm : is_terminal m = false := hbus m (by simp)
    have ih1 := ih (fun x hx => hbus x (by simp [hx]))
    cases m with
    | none => simp [bus_loop, ih1]
    | some msg => simp [bus_loop, handle_message_terminates, hm, ih1]

theorem run_pipeline_of_terminal (env : Engine) (data : ApplicationContext)
    (pre post : List (Option GstMessage)) (t : GstMessage)
    (hplay : env.set_state_playing ≠ GstStateChangeReturn.FAILURE)
    (hbus : env.bus = pre ++ some t :: post)
    (hpre : ∀ m ∈ pre, is_terminal m = false)
    (ht : is_terminal (some t) = true) :
    (run_pipeline env data).outcome = Outcome.returned 0 := by
  have h := (bus_loop_until_terminal data.pipeline pre post t hpre ht).1
  simp [run_pipeline, hplay, hbus, h]

theorem main_of_run (env : Engine) (argv : List CStr) (data : ApplicationContext)
    (hparse : (parse_command_line argv data).code = 0)
    (hcreate : (create_pipeline env (parse_command_line argv data).data).code = 0)
    (code : Int)
    (hrun : (run_pipeline env
      (create_pipeline env (parse_command_line argv data).data).data).outcome
        = Outcome.returned code) :
    (main env argv data).outcome = Outcome.returned (if code ≠ 0 then 1 else 0) := by
  simp only [main, hparse, hcreate, hrun]
  by_cases hc : code = 0 <;> simp [hc]

/-! ## C2: an ERROR message on the bus -/

/-- C2 (the code departs from the claim). When the pipeline was constructed,
the PLAYING request did not fail and the first ERROR or END_OF_STREAM message
on the bus is an ERROR, the loop stops on that message (what follows it on the
bus is left unread), but `run_pipeline` returns 0 and `main` returns 0: the
error is not reported as a failure of the run and the exit code is not 1. -/
theorem engine_error_exits_zero (env : Engine) (argv : List CStr) (data : ApplicationContext)
    (pre post : List (Option GstMessage)) (t : GstMessage)
    (hparse : (parse_command_line argv data).code = 0)
    (hcreate : (create_pipeline env (parse_command_line argv data).data).code = 0)
    (hplay : env.set_state_playing ≠ GstStateChangeReturn.FAILURE)
    (hbus : env.bus = pre ++ some t :: post)
    (hpre : ∀ m ∈ pre, is_terminal m = false)
    (ht : t.type = GstMessageType.ERROR) :
    (∀ pipeline, (bus_loop pipeline env.bus).terminated = true
        ∧ (bus_loop pipeline env.bus).remaining = post)
    ∧ (run_pipeline env
        (create_pipeline env (parse_command_line argv data).data).data).outcome
          = Outcome.returned 0
    ∧ (main env argv data).outcome = Outcome.returned 0 := by
  have hterm : is_terminal (some t) = true := by simp [is_terminal, ht]
  have hrun := run_pipeline_of_terminal env
    (create_pipeline env (parse_command_line argv data).data).data pre post t hplay hbus hpre hterm
  refine ⟨fun pipeline => ?_, hrun, ?_⟩
  · rw [hbus]
    exact ⟨(bus_loop_until_terminal pipeline pre post t hpre hterm).1,
      (bus_loop_until_terminal pipeline pre post t hpre hterm).2.1⟩
  · simpa using main_of_run env argv data hparse hcreate 0 hrun

/-- C2, at a run with three existing files in which a child element posts an
ERROR: the process returns 0. -/
theorem engine_error_exits_zero_witness :
    (main (sample_engine_with_bus sample_error_bus) sample_argv3 sample_uninit).outcome
      = Outcome.returned 0 :=
  (engine_error_exits_zero (sample_engine_with_bus sample_error_bus) sample_argv3 sample_uninit
    (sample_error_bus.take 3) (sample_error_bus.drop 4)
    (sample_message GstMessageType.ERROR (some 2))
    (by decide) (by decide) (by decide) (by decide) (by decide) (by decide)).2.2

/-! ## C3: the loop runs to the first terminal message -/

/-- C3. After a PLAYING request that did not fail, if the bus delivers `pre`,
then `t`, then `post`, where `t` is the first ERROR or END_OF_STREAM message,
the loop terminates having consumed exactly `pre` and `t`: `post` is left
unread and has no influence on what the loop does. No STATE_CHANGED message,
whatever its origin, sets `terminate`. When `t` is END_OF_STREAM,
`run_pipeline` returns 0, and so does `main` when the command line was accepted
and the pipeline constructed. -/
theorem control_loop_stops_at_first_terminal (env : Engine) (argv : List CStr)
    (data : ApplicationContext) (pre post : List (Option GstMessage)) (t : GstMessage)
    (hplay : env.set_state_playing ≠ GstStateChangeReturn.FAILURE)
    (hbus : env.bus = pre ++ some t :: post)
    (hpre : ∀ m ∈ pre, is_terminal m = false)
    (ht : t.type = GstMessageType.ERROR ∨ t.type = GstMessageType.EOS) :
    (∀ pipeline, (bus_loop pipeline env.bus).terminated = true
        ∧ (bus_loop pipeline env.bus).remaining = post
        ∧ (bus_loop pipeline env.bus).ops = (bus_loop pipeline (pre ++ [some t])).ops)
    ∧ (∀ pipeline msg, msg.type = GstMessageType.STATE_CHANGED →
        (handle_message pipeline msg).1 = false)
    ∧ (t.type = GstMessageType.EOS →
        (∀ context, (run_pipeline env context).outcome = Outcome.returned 0)
        ∧ ((parse_command_line argv data).code = 0 →
            (create_pipeline env (parse_command_line argv data).data).code = 0 →
            (main env argv data).outcome = Outcome.returned 0)) := by
  have hterm : is_terminal (some t) = true := by
    rcases ht with h | h <;> simp [is_terminal, h]
  refine ⟨fun pipeline => ?_, fun pipeline msg hmsg => ?_, fun _ => ⟨fun context => ?_, ?_⟩⟩
  · rw [hbus]
    exact bus_loop_until_terminal pipeline pre post t hpre hterm
  · simp [handle_message, hmsg]
  · exact run_pipeline_of_terminal env context pre post t hplay hbus hpre hterm
  · intro hparse hcreate
    simpa using main_of_run env argv data hparse hcreate 0
      (run_pipeline_of_terminal env _ pre post t hplay hbus hpre hterm)

/-- C3, at the sample run: two state changes (one of the pipeline, one of a
child) and then END_OF_STREAM; nothing is left unread and the process returns 0. -/
theorem control_loop_stops_at_first_terminal_witness :
    (bus_loop (some 100) sample_engine.bus).remaining = []
    ∧ (main sample_engine sample_argv3 sample_uninit).outcome = Outcome.returned 0 :=
  have h := control_loop_stops_at_first_terminal sample_engine sample_argv3 sample_uninit
    (sample_engine.bus.take 2) [] (sample_message GstMessageType.EOS (some 100))
    (by decide) (by decide) (by decide) (by decide)
  ⟨((h.1 (some 100)).2.1), (h.2.2 (by decide)).2 (by decide) (by decide)⟩

/-! ## Element creation -/

theorem ENSURE_INITED_none (l : List (GstElementPtr × CStr)) :
    ENSURE_INITED l = none ↔ ∀ x ∈ l, x.1.isSome = true := by
  induction l with
  | nil => simp [ENSURE_INITED]
  | cons x l ih =>
    obtain ⟨p, y⟩ := x
    cases p <;> simp [ENSURE_INITED, ih]

/-- The shape of a successful `create_pipeline_elements`. -/
theorem create_pipeline_elements_ok (env : Engine) (data0 : ApplicationContext)
    (h : (create_pipeline_elements env data0).code = 0) :
    (create_pipeline_elements env data0).data = create_elements env data0
    ∧ (create_elements env data0).pipeline.isSome = true
    ∧ ENSURE_INITED (ensure_inited_list (create_elements env data0)) = none
    ∧ ∃ current_work_dir, getcwd env PATH_MAX = some current_work_dir
      ∧ (set_source_uris env (create_elements env data0) current_work_dir 0 MAX_SOURCES).1 = 0
      ∧ (create_pipeline_elements env data0).ops
          = creation_ops data0.streaming_enabled
            ++ [Op.g_print ("Current working dir: ".toList ++ current_work_dir ++ "\n".toList)]
            ++ (set_source_uris env (create_elements env data0) current_work_dir 0 MAX_SOURCES).2
            ++ (if data0.streaming_enabled then streaming_properties (create_elements env data0)
                else []) := by
  unfold create_pipeline_elements at h ⊢
  simp only at h ⊢
  split at h
  · simp at h
  · rename_i hp
    split at h
    · simp at h
    · rename_i he
      split at h
      · simp at h
      · rename_i cwd hc
        split at h
        · simp at h
        · rename_i hu
          simp only [hp, he, hc, hu, if_false]
          refine ⟨rfl, by simpa [Option.isSome_iff_ne_none] using hp, trivial, cwd, rfl,
            by simpa using hu, ?_⟩
          simp [create_elements]

theorem set_source_uris_ops (env : Engine) (data : ApplicationContext) (cwd : CStr)
    (n i : Nat) (op : Op) (hop : op ∈ (set_source_uris env data cwd i n).2) :
    (∃ text, op = Op.g_print text) ∨ (∃ text, op = Op.g_printerr text)
    ∨ (∃ obj value, op = Op.g_object_set obj "uri".toList value) := by
  induction n generalizing i with
  | zero => simp [set_source_uris] at hop
  | succ n ih =>
    unfold set_source_uris at hop
    simp only at hop
    split at hop
    · simp only [List.cons_append, List.nil_append, List.mem_cons] at hop
      rcases hop with h | h | h
      · exact Or.inl ⟨_, h⟩
      · exact Or.inr (Or.inr ⟨_, _, h⟩)
      · exact ih (i + 1) h
    · simp only [List.mem_singleton] at hop
      exact Or.inr (Or.inl ⟨_, hop⟩)

/-- In a successful streaming run of `create_pipeline_elements` the property
`location` is assigned once: on the network sink, with the text left in `string_buf`. -/
theorem location_assignment (env : Engine) (data0 : ApplicationContext)
    (h : (create_pipeline_elements env data0).code = 0)
    (hs : data0.streaming_enabled = true) (obj : Option Nat) (value : GValue) :
    Op.g_object_set obj "location".toList value ∈ (create_pipeline_elements env data0).ops
    ↔ obj = (create_pipeline_elements env data0).data.rtmp_sink
      ∧ value = GValue.str (snprintf (PATH_MAX + 1024)
          (TWITCH_URL_PREFIX ++ "/".toList ++ data0.twitch_api_key)) := by
  obtain ⟨hd, _, _, cwd, _, _, hops⟩ := create_pipeline_elements_ok env data0 h
  rw [hops, hd]
  have huri : Op.g_object_set obj "location".toList value ∉
      (set_source_uris env (create_elements env data0) cwd 0 MAX_SOURCES).2 := by
    intro hmem
    rcases set_source_uris_ops env _ cwd _ _ _ hmem with ⟨_, h1⟩ | ⟨_, h1⟩ | ⟨_, _, h1⟩
    · cases h1
    · cases h1
    · injection h1 with _ h2 _
      exact absurd h2 (by decide)
  have hkey : (create_elements env data0).twitch_api_key = data0.twitch_api_key := rfl
  simp [hs, creation_ops, streaming_properties, hkey]
  intro hmem
  exact absurd (by simpa using hmem) huri

theorem parse_streaming (argv : List CStr) (data : ApplicationContext)
    (hargs : (positional argv).length = 4) :
    (parse_command_line argv data).code = 0
    ∧ (parse_command_line argv data).data.streaming_enabled = true
    ∧ (parse_command_line argv data).data.twitch_api_key = argvAt (positional argv) 0 := by
  have h5 : argv.length = 5 := by
    rw [positional_length] at hargs; omega
  simp [parse_command_line, h5, MAX_SOURCES, argvAt_positional]

theorem parse_not_streaming (argv : List CStr) (data : ApplicationContext)
    (hargs : (positional argv).length = 3) :
    (parse_command_line argv data).code = 0
    ∧ (parse_command_line argv data).data.streaming_enabled = false
    ∧ (parse_command_line argv data).data.pipeline = data.pipeline := by
  have h4 : argv.length = 4 := by
    rw [positional_length] at hargs; omega
  simp [parse_command_line, h4, MAX_SOURCES]

/-! ## C4: the target of the network sink -/

/-- C4 fails as stated: with the 5094-char credential `long_credential` and
three existing files, element creation succeeds and no object has its
`location` set to the URL prefix followed by the whole credential. -/
theorem long_credential_not_in_location :
    (positional long_argv).length = 4
    ∧ argvAt (positional long_argv) 0 = long_credential
    ∧ (create_pipeline_elements sample_engine
        (parse_command_line long_argv sample_uninit).data).code = 0
    ∧ ∀ obj, Op.g_object_set obj "location".toList
          (GValue.str ("rtmp://live.justin.tv/app/".toList ++ long_credential))
        ∉ (create_pipeline_elements sample_engine
            (parse_command_line long_argv sample_uninit).data).ops := by
  have hcode : (create_pipeline_elements sample_engine
      (parse_command_line long_argv sample_uninit).data).code = 0 := by decide
  refine ⟨by decide, rfl, hcode, fun obj hmem => ?_⟩
  have hloc := (location_assignment sample_engine _ hcode
    (parse_streaming long_argv sample_uninit (by decide)).2.1 obj _).1 hmem
  have hlen := congrArg List.length (GValue.str.inj hloc.2)
  have hkey : (parse_command_line long_argv sample_uninit).data.twitch_api_key
      = long_credential := rfl
  have h1 : ("rtmp://live.justin.tv/app/".toList).length = 26 := by decide
  have h2 : TWITCH_URL_PREFIX.length = 25 := by decide
  have h3 : ("/".toList).length = 1 := by decide
  rw [hkey] at hlen
  simp only [snprintf, List.length_take, List.length_append, long_credential,
    List.length_replicate, h1, h2, h3, PATH_MAX] at hlen
  omega

/-- C4 (amended). For an argument vector with a credential `c` and three
source paths, when element creation succeeds the six units of the network
sub-graph have been requested from the factory and their handles are not
`NULL`, and `location` is assigned exactly once, on the network sink, to the
first 5119 chars of `rtmp://live.justin.tv/app/` followed by `c`: that is the
whole text exactly when `c` has at most 5093 chars. -/
theorem network_sink_location (env : Engine) (argv : List CStr) (data : ApplicationContext)
    (hargs : (positional argv).length = 4)
    (hok : (create_pipeline_elements env (parse_command_line argv data).data).code = 0) :
    ((create_pipeline_elements env (parse_command_line argv data).data).data.stream_audio_queue.isSome
      ∧ (create_pipeline_elements env (parse_command_line argv data).data).data.voaacenc.isSome
      ∧ (create_pipeline_elements env (parse_command_line argv data).data).data.stream_video_queue.isSome
      ∧ (create_pipeline_elements env (parse_command_line argv data).data).data.x264enc.isSome
      ∧ (create_pipeline_elements env (parse_command_line argv data).data).data.flv_mux.isSome
      ∧ (create_pipeline_elements env (parse_command_line argv data).data).data.rtmp_sink.isSome)
    ∧ (∀ op ∈ [Op.gst_element_factory_make "voaacenc".toList "aac_encoder".toList,
               Op.gst_element_factory_make "queue".toList "stream_audio_queue".toList,
               Op.gst_element_factory_make "queue".toList "stream_video_queue".toList,
               Op.gst_element_factory_make "x264enc".toList "x264_enc".toList,
               Op.gst_element_factory_make "flvmux".toList "flv_mux".toList,
               Op.gst_element_factory_make "rtmpsink".toList "rtmp_sink".toList],
        op ∈ (create_pipeline_elements env (parse_command_line argv data).data).ops)
    ∧ (∀ obj value,
        Op.g_object_set obj "location".toList value
            ∈ (create_pipeline_elements env (parse_command_line argv data).data).ops
        ↔ obj = (create_pipeline_elements env (parse_command_line argv data).data).data.rtmp_sink
          ∧ value = GValue.str
              (("rtmp://live.justin.tv/app/".toList ++ argvAt (positional argv) 0).take 5119))
    ∧ ((("rtmp://live.justin.tv/app/".toList ++ argvAt (positional argv) 0).take 5119
          = "rtmp://live.justin.tv/app/".toList ++ argvAt (positional argv) 0)
        ↔ (argvAt (positional argv) 0).length ≤ 5093) := by
  obtain ⟨_, hs, hkey⟩ := parse_streaming argv data hargs
  obtain ⟨hd, _, he, cwd, _, _, hops⟩ := create_pipeline_elements_ok env _ hok
  have hall := (ENSURE_INITED_none _).1 he
  refine ⟨?_, ?_, ?_, ?_⟩
  · rw [hd]
    have hs1 : (create_elements env (parse_command_line argv data).data).streaming_enabled
        = true := hs
    simp only [ensure_inited_list, hs1, if_true] at hall
    exact ⟨hall (_, "stream_audio_queue".toList) (by simp),
      hall (_, "voaacenc".toList) (by simp),
      hall (_, "stream_video_queue".toList) (by simp),
      hall (_, "x264enc".toList) (by simp),
      hall (_, "flv_mux".toList) (by simp),
      hall (_, "rtmp_sink".toList) (by simp)⟩
  · rw [hops]
    simp [hs, creation_ops]
  · intro obj value
    rw [location_assignment env _ hok hs obj value, hkey]
    simp [snprintf, TWITCH_URL_PREFIX, PATH_MAX]
  · rw [List.take_eq_self_iff]
    simp

/-- C4 (amended), at the sample run with credential `live_1_abc`. -/
theorem network_sink_location_witness :
    Op.g_object_set (some 21) "location".toList
        (GValue.str "rtmp://live.justin.tv/app/live_1_abc".toList)
      ∈ (create_pipeline_elements sample_engine
          (parse_command_line sample_argv4 sample_uninit).data).ops :=
  ((network_sink_location sample_engine sample_argv4 sample_uninit (by decide)
      (by decide)).2.2.1 (some 21) _).2 ⟨by decide, by decide⟩

/-! ## What each construction step can do -/

theorem creation_ops_mem (streaming_enabled : Bool) (op : Op)
    (hop : op ∈ creation_ops streaming_enabled) :
    (∃ name, op = Op.gst_pipeline_new name)
    ∨ ∃ factory name, op = Op.gst_element_factory_make factory name
        ∧ (streaming_enabled = false →
            factory ∉ ["voaacenc".toList, "x264enc".toList, "flvmux".toList, "rtmpsink".toList]
            ∧ name ∉ ["stream_audio_queue".toList, "stream_video_queue".toList]) := by
  cases streaming_enabled
  · simp only [creation_ops, MAX_SOURCES, AUDIO_FROM_SOURCE_INDEX, Bool.false_eq_true,
      if_false, List.append_nil] at hop
    simp only [List.mem_append, List.mem_map, List.mem_cons, List.mem_filter,
      List.mem_range, List.mem_singleton, List.not_mem_nil, or_false] at hop
    rcases hop with ((((((⟨i, hi, rfl⟩ | h) | ⟨i, ⟨hi, _⟩, rfl⟩) | h) | ⟨i, hi, rfl⟩) | h) | h)
    · right
      refine ⟨_, _, rfl, fun _ => ⟨by decide, ?_⟩⟩
      interval_cases i <;> decide
    · rcases h with rfl | rfl | rfl <;> right <;> exact ⟨_, _, rfl, fun _ => by decide⟩
    · right
      refine ⟨_, _, rfl, fun _ => ⟨by decide, ?_⟩⟩
      interval_cases i <;> decide
    · rcases h with rfl | rfl <;> right <;> exact ⟨_, _, rfl, fun _ => by decide⟩
    · right
      refine ⟨_, _, rfl, fun _ => ⟨by decide, ?_⟩⟩
      interval_cases i <;> decide
    · rcases h with rfl | rfl <;> right <;> exact ⟨_, _, rfl, fun _ => by decide⟩
    · rcases h with rfl | rfl | rfl
      · right; exact ⟨_, _, rfl, fun _ => by decide⟩
      · right; exact ⟨_, _, rfl, fun _ => by decide⟩
      · left; exact ⟨_, rfl⟩
  · simp only [creation_ops, if_true] at hop
    simp only [List.mem_append, List.mem_map, List.mem_cons, List.mem_filter,
      List.mem_range, List.mem_singleton, List.not_mem_nil, or_false] at hop
    rcases hop with ((((((((⟨i, hi, rfl⟩ | h) | h) | ⟨i, ⟨hi, _⟩, rfl⟩) | h) | ⟨i, hi, rfl⟩)
      | h) | h) | h)
    · right; exact ⟨_, _, rfl, fun hf => by cases hf⟩
    · rcases h with rfl | rfl | rfl <;> right <;> exact ⟨_, _, rfl, fun hf => by cases hf⟩
    · rcases h with rfl | rfl <;> right <;> exact ⟨_, _, rfl, fun hf => by cases hf⟩
    · right; exact ⟨_, _, rfl, fun hf => by cases hf⟩
    · rcases h with rfl | rfl <;> right <;> exact ⟨_, _, rfl, fun hf => by cases hf⟩
    · right; exact ⟨_, _, rfl, fun hf => by cases hf⟩
    · rcases h with rfl | rfl <;> right <;> exact ⟨_, _, rfl, fun hf => by cases hf⟩
    · rcases h with rfl | rfl | rfl | rfl <;> right <;>
        exact ⟨_, _, rfl, fun hf => by cases hf⟩
    · rcases h with rfl | rfl | rfl
      · right; exact ⟨_, _, rfl, fun hf => by cases hf⟩
      · right; exact ⟨_, _, rfl, fun hf => by cases hf⟩
      · left; exact ⟨_, rfl⟩

theorem create_pipeline_elements_data (env : Engine) (data0 : ApplicationContext) :
    (create_pipeline_elements env data0).data = create_elements env data0 := by
  unfold create_pipeline_elements
  simp only
  split
  · rfl
  · split
    · rfl
    · split
      · rfl
      · split <;> rfl

theorem create_pipeline_elements_mem (env : Engine) (data0 : ApplicationContext) (op : Op)
    (hop : op ∈ (create_pipeline_elements env data0).ops) :
    op ∈ creation_ops data0.streaming_enabled ∨ op.wiring = true := by
  have huris : ∀ cwd, op ∈ (set_source_uris env (create_elements env data0) cwd 0
      MAX_SOURCES).2 → op.wiring = true := by
    intro cwd hmem
    rcases set_source_uris_ops env _ cwd _ _ _ hmem with ⟨_, rfl⟩ | ⟨_, rfl⟩ | ⟨_, _, rfl⟩ <;> rfl
  have hprops : op ∈ streaming_properties (create_elements env data0) → op.wiring = true := by
    intro hmem
    simp only [streaming_properties, List.mem_cons, List.mem_singleton, List.not_mem_nil,
      or_false] at hmem
    rcases hmem with rfl | rfl | rfl | rfl | rfl | rfl | rfl | rfl | rfl | rfl <;> rfl
  unfold create_pipeline_elements at hop
  simp only at hop
  split at hop
  · simp only [List.mem_append, List.mem_singleton] at hop
    rcases hop with h | rfl
    · exact Or.inl h
    · exact Or.inr rfl
  · split at hop
    · simp only [List.mem_append, List.mem_singleton] at hop
      rcases hop with h | rfl
      · exact Or.inl h
      · exact Or.inr rfl
    · split at hop
      · simp only [List.mem_append, List.mem_singleton] at hop
        rcases hop with h | rfl
        · exact Or.inl h
        · exact Or.inr rfl
      · rename_i cwd _
        split at hop
        · simp only [List.mem_append, List.mem_singleton] at hop
          rcases hop with (h | rfl) | h
          · exact Or.inl h
          · exact Or.inr rfl
          · exact Or.inr (huris cwd h)
        · simp only [List.mem_append, List.mem_singleton] at hop
          rcases hop with ((h | rfl) | h) | h
          · exact Or.inl h
          · exact Or.inr rfl
          · exact Or.inr (huris cwd h)
          · split at h
            · exact Or.inr (hprops h)
            · simp at h

theorem add_loop_mem (env : Engine) (pipeline : GstElementPtr) (elem : Nat → GstElementPtr)
    (skip : Nat → Bool) (what : CStr) (n i : Nat) (op : Op)
    (hop : op ∈ (add_loop env pipeline elem skip what i n).2) :
    (∃ text, op = Op.g_printerr text)
    ∨ ∃ j, i ≤ j ∧ j < i + n ∧ skip j = false ∧ op = Op.gst_bin_add pipeline (elem j) := by
  induction n generalizing i with
  | zero => simp [add_loop] at hop
  | succ n ih =>
    unfold add_loop at hop
    split at hop
    · rcases ih (i + 1) hop with h | ⟨j, h1, h2, h3, h4⟩
      · exact Or.inl h
      · exact Or.inr ⟨j, by omega, by omega, h3, h4⟩
    · rename_i hskip
      split at hop
      · simp only [List.mem_cons] at hop
        rcases hop with rfl | h
        · exact Or.inr ⟨i, le_refl _, by omega, by simpa using hskip, rfl⟩
        · rcases ih (i + 1) h with h | ⟨j, h1, h2, h3, h4⟩
          · exact Or.inl h
          · exact Or.inr ⟨j, by omega, by omega, h3, h4⟩
      · simp only [List.mem_cons, List.mem_singleton, List.not_mem_nil, or_false] at hop
        rcases hop with rfl | rfl
        · exact Or.inr ⟨i, le_refl _, by omega, by simpa using hskip, rfl⟩
        · exact Or.inl ⟨_, rfl⟩

theorem gst_bin_add_many_mem (bin : GstElementPtr) (elements : List GstElementPtr) (op : Op)
    (hop : op ∈ gst_bin_add_many bin elements) :
    ∃ e ∈ elements, e.isSome = true ∧ op = Op.gst_bin_add bin e := by
  simp only [gst_bin_add_many, List.mem_map] at hop
  obtain ⟨e, he, rfl⟩ := hop
  exact ⟨e, List.takeWhile_subset _ he, List.mem_takeWhile_imp he, rfl⟩

/-- Every action of `add_elements_to_pipeline` is a diagnostic or the insertion
of a unit of the graph into the pipeline; network units only in streaming mode. -/
theorem add_elements_to_pipeline_mem (env : Engine) (data : ApplicationContext) (op : Op)
    (hop : op ∈ (add_elements_to_pipeline env data).ops) :
    (∃ text, op = Op.g_printerr text)
    ∨ ∃ e, op = Op.gst_bin_add data.pipeline e
        ∧ (e ∈ local_units data
            ∨ (data.streaming_enabled = true ∧ e ∈ network_units data ∧ e.isSome = true)) := by
  have hsrc : op ∈ (add_loop env data.pipeline data.source (fun _ => false)
      "data source".toList 0 MAX_SOURCES).2 →
      (∃ text, op = Op.g_printerr text)
      ∨ ∃ e, op = Op.gst_bin_add data.pipeline e ∧ e ∈ local_units data := by
    intro h
    rcases add_loop_mem _ _ _ _ _ _ _ _ h with h | ⟨j, _, h2, _, rfl⟩
    · exact Or.inl h
    · refine Or.inr ⟨_, rfl, ?_⟩
      simp only [MAX_SOURCES] at h2
      interval_cases j <;> simp [local_units]
  have hsink : op ∈ (add_loop env data.pipeline data.audio_sink
      (fun i => decide (i = AUDIO_FROM_SOURCE_INDEX)) "audio sink".toList 0 MAX_SOURCES).2 →
      (∃ text, op = Op.g_printerr text)
      ∨ ∃ e, op = Op.gst_bin_add data.pipeline e ∧ e ∈ local_units data := by
    intro h
    rcases add_loop_mem _ _ _ _ _ _ _ _ h with h | ⟨j, _, h2, h3, rfl⟩
    · exact Or.inl h
    · refine Or.inr ⟨_, rfl, ?_⟩
      simp only [MAX_SOURCES] at h2
      simp only [AUDIO_FROM_SOURCE_INDEX, decide_eq_false_iff_not] at h3
      interval_cases j
      · exact absurd rfl h3
      · simp [local_units]
      · simp [local_units]
  have hscale : op ∈ (add_loop env data.pipeline data.video_scale (fun _ => false)
      "video scale".toList 0 MAX_SOURCES).2 →
      (∃ text, op = Op.g_printerr text)
      ∨ ∃ e, op = Op.gst_bin_add data.pipeline e ∧ e ∈ local_units data := by
    intro h
    rcases add_loop_mem _ _ _ _ _ _ _ _ h with h | ⟨j, _, h2, _, rfl⟩
    · exact Or.inl h
    · refine Or.inr ⟨_, rfl, ?_⟩
      simp only [MAX_SOURCES] at h2
      interval_cases j <;> simp [local_units]
  have lift : ((∃ text, op = Op.g_printerr text)
      ∨ ∃ e, op = Op.gst_bin_add data.pipeline e ∧ e ∈ local_units data) →
      ((∃ text, op = Op.g_printerr text)
      ∨ ∃ e, op = Op.gst_bin_add data.pipeline e
        ∧ (e ∈ local_units data
            ∨ (data.streaming_enabled = true ∧ e ∈ network_units data ∧ e.isSome = true))) := by
    rintro (h | ⟨e, h1, h2⟩)
    · exact Or.inl h
    · exact Or.inr ⟨e, h1, Or.inl h2⟩
  unfold add_elements_to_pipeline at hop
  simp only at hop
  split at hop
  · exact lift (hsrc hop)
  · split at hop
    · simp only [List.mem_append] at hop
      rcases hop with h | h
      · exact lift (hsrc h)
      · exact lift (hsink h)
    · split at hop
      · simp only [List.mem_append] at hop
        rcases hop with (h | h) | h
        · exact lift (hsrc h)
        · exact lift (hsink h)
        · exact lift (hscale h)
      · simp only [List.mem_append] at hop
        rcases hop with ((((h | h) | h) | h) | h)
        · exact lift (hsrc h)
        · exact lift (hsink h)
        · exact lift (hscale h)
        · obtain ⟨e, he, _, rfl⟩ := gst_bin_add_many_mem _ _ _ h
          refine Or.inr ⟨e, rfl, Or.inl ?_⟩
          simp only [List.mem_cons, List.mem_singleton, List.not_mem_nil, or_false] at he
          rcases he with rfl | rfl | rfl | rfl | rfl | rfl | rfl | rfl | rfl <;>
            simp [local_units]
        · split at h
          · rename_i hs
            obtain ⟨e, he, hsome, rfl⟩ := gst_bin_add_many_mem _ _ _ h
            exact Or.inr ⟨e, rfl, Or.inr ⟨hs, he, hsome⟩⟩
          · simp at h

theorem request_mixer_pads_mem (env : Engine) (videomixer : GstElementPtr) (n i : Nat)
    (pads : Nat → GstPadPtr) (op : Op)
    (hop : op ∈ (request_mixer_pads env videomixer pads i n).2.2) :
    op.wiring = true
    ∨ ∃ j, i ≤ j ∧ j < i + n
        ∧ op = Op.gst_element_get_request_pad videomixer "sink_%u".toList j := by
  induction n generalizing i pads with
  | zero => simp [request_mixer_pads] at hop
  | succ n ih =>
    unfold request_mixer_pads at hop
    simp only at hop
    split at hop
    · simp only [List.mem_cons, List.mem_singleton, List.not_mem_nil, or_false] at hop
      rcases hop with rfl | rfl
      · exact Or.inr ⟨i, le_refl _, by omega, rfl⟩
      · exact Or.inl rfl
    · simp only [List.cons_append, List.nil_append, List.mem_cons] at hop
      rcases hop with rfl | rfl | h
      · exact Or.inr ⟨i, le_refl _, by omega, rfl⟩
      · exact Or.inl rfl
      · rcases ih (i + 1) _ h with h | ⟨j, h1, h2, h3⟩
        · exact Or.inl h
        · exact Or.inr ⟨j, by omega, by omega, h3⟩

/-- Every action of `setup_videomixer_layout` is wiring or one of the three
requests for a compositor input. -/
theorem setup_videomixer_layout_mem (env : Engine) (data : ApplicationContext) (op : Op)
    (hop : op ∈ (setup_videomixer_layout env data).ops) :
    op.wiring = true
    ∨ ∃ j, j < MAX_SOURCES
        ∧ op = Op.gst_element_get_request_pad data.videomixer "sink_%u".toList j := by
  have hreq : op ∈ (request_mixer_pads env data.videomixer env.video_mixer_sink_pad_uninit 0
      MAX_SOURCES).2.2 → op.wiring = true
    ∨ ∃ j, j < MAX_SOURCES
        ∧ op = Op.gst_element_get_request_pad data.videomixer "sink_%u".toList j := by
    intro h
    rcases request_mixer_pads_mem _ _ _ _ _ _ h with h | ⟨j, _, h2, h3⟩
    · exact Or.inl h
    · exact Or.inr ⟨j, by omega, h3⟩
  have hunref : ∀ pads, op ∈ unref_mixer_pads pads → op.wiring = true := by
    intro pads h
    simp only [unref_mixer_pads, List.mem_map] at h
    obtain ⟨_, _, rfl⟩ := h
    rfl
  have hlayout : ∀ pads, op ∈ layout_ops data.videomixer pads → op.wiring = true := by
    intro pads h
    simp only [layout_ops, List.mem_cons, List.mem_singleton, List.not_mem_nil, or_false] at h
    rcases h with rfl | rfl | rfl | rfl | rfl | rfl | rfl | rfl <;> rfl
  unfold setup_videomixer_layout at hop
  simp only at hop
  split at hop
  · simp only [List.mem_append] at hop
    rcases hop with h | h
    · exact hreq h
    · exact Or.inl (hunref _ h)
  · simp only [List.mem_append] at hop
    rcases hop with (h | h) | h
    · exact hreq h
    · exact Or.inl (hlayout _ h)
    · exact Or.inl (hunref _ h)

theorem step_mem (ok : Bool) (ops : List Op) (diagnostic : CStr) (next : Int × List Op)
    (op : Op) (hop : op ∈ (step ok ops diagnostic next).2) :
    op ∈ ops ∨ op ∈ next.2 ∨ op = Op.g_printerr diagnostic := by
  unfold step at hop
  split at hop
  · simp only [List.mem_append] at hop
    rcases hop with h | h
    · exact Or.inl h
    · exact Or.inr (Or.inl h)
  · simp only [List.mem_append, List.mem_singleton] at hop
    rcases hop with h | h
    · exact Or.inl h
    · exact Or.inr (Or.inr h)

theorem link_scalers_mem (env : Engine) (data : ApplicationContext) (caps : GstCapsPtr)
    (next : Int × List Op) (n i : Nat) (op : Op)
    (hop : op ∈ (link_scalers env data caps next i n).2) :
    op.wiring = true ∨ op ∈ next.2 := by
  induction n generalizing i with
  | zero => exact Or.inr (by simpa [link_scalers] using hop)
  | succ n ih =>
    unfold link_scalers at hop
    rcases step_mem _ _ _ _ _ hop with h | h | rfl
    · simp only [List.mem_singleton] at h
      subst h
      exact Or.inl rfl
    · exact ih (i + 1) h
    · exact Or.inl rfl

theorem link_chains_mem (env : Engine) (data : ApplicationContext) (next : Int × List Op)
    (op : Op) (hop : op ∈ (link_chains env data next).2) :
    op.wiring = true ∨ op ∈ next.2 := by
  unfold link_chains at hop
  rcases step_mem _ _ _ _ _ hop with h | h | rfl
  · simp only [List.mem_singleton] at h
    subst h
    exact Or.inl rfl
  · rcases step_mem _ _ _ _ _ h with h | h | rfl
    · simp only [List.mem_singleton] at h
      subst h
      exact Or.inl rfl
    · rcases link_scalers_mem _ _ _ _ _ _ _ h with h | h
      · exact Or.inl h
      · simp only [List.mem_cons] at h
        rcases h with rfl | h
        · exact Or.inl rfl
        · rcases step_mem _ _ _ _ _ h with h | h | rfl
          · simp only [List.mem_singleton] at h
            subst h
            exact Or.inl rfl
          · exact Or.inr h
          · exact Or.inl rfl
    · exact Or.inl rfl
  · exact Or.inl rfl

theorem link_both_mem (env : Engine) (a b c d : GstPadPtr) (op : Op)
    (hop : op ∈ (link_both env a b c d).2) : op.wiring = true := by
  unfold link_both at hop
  split at hop
  · simp only [List.mem_cons, List.mem_singleton, List.not_mem_nil, or_false] at hop
    rcases hop with rfl | rfl <;> rfl
  · simp only [List.mem_singleton] at hop
    subst hop
    rfl

theorem link_streaming_mem (env : Engine) (data : ApplicationContext) (pads : LinkPads)
    (next : Int × List Op) (op : Op) (hop : op ∈ (link_streaming env data pads next).2) :
    op.wiring = true ∨ op ∈ next.2 := by
  unfold link_streaming at hop
  rcases step_mem _ _ _ _ _ hop with h | h | rfl
  · exact Or.inl (link_both_mem _ _ _ _ _ _ h)
  · rcases step_mem _ _ _ _ _ h with h | h | rfl
    · simp only [List.mem_singleton] at h
      subst h
      exact Or.inl rfl
    · rcases step_mem _ _ _ _ _ h with h | h | rfl
      · simp only [List.mem_singleton] at h
        subst h
        exact Or.inl rfl
      · exact Or.inr h
      · exact Or.inl rfl
    · exact Or.inl rfl
  · exact Or.inl rfl

theorem link_fanout_mem (env : Engine) (data : ApplicationContext) (pads : LinkPads)
    (op : Op) (hop : op ∈ (link_fanout env data pads).2) : op.wiring = true := by
  have hdev : ∀ x, x ∈ (step
      (env.gst_element_link_many [data.device_audio_queue, data.audio_device_sink])
      [Op.gst_element_link_many [data.device_audio_queue, data.audio_device_sink]]
      "Error: device audio elements could not be linked.\n".toList <|
    step (env.gst_element_link_many [data.device_video_queue, data.video_device_sink])
      [Op.gst_element_link_many [data.device_video_queue, data.video_device_sink]]
      "Error: device video elements could not be linked.\n".toList
      (0, (List.range MAX_SOURCES).map
            (fun i => Op.g_signal_connect (data.source i) "pad-added".toList))).2 →
      x.wiring = true := by
    intro x hx
    rcases step_mem _ _ _ _ _ hx with h | h | rfl
    · simp only [List.mem_singleton] at h
      subst h
      rfl
    · rcases step_mem _ _ _ _ _ h with h | h | rfl
      · simp only [List.mem_singleton] at h
        subst h
        rfl
      · simp only [List.mem_map] at h
        obtain ⟨_, _, rfl⟩ := h
        rfl
      · rfl
    · rfl
  unfold link_fanout at hop
  simp only at hop
  rcases step_mem _ _ _ _ _ hop with h | h | rfl
  · exact link_both_mem _ _ _ _ _ _ h
  · split at h
    · rcases link_streaming_mem _ _ _ _ _ h with h | h
      · exact h
      · exact hdev _ h
    · exact hdev _ h
  · rfl

/-- Every action of `link_pipeline_elements` is wiring or one of the pad
requests of Main.c 428-440. -/
theorem link_pipeline_elements_mem (env : Engine) (data : ApplicationContext) (op : Op)
    (hop : op ∈ (link_pipeline_elements env data).ops) :
    op.wiring = true ∨ op ∈ fanout_pad_ops data := by
  unfold link_pipeline_elements at hop
  simp only at hop
  rcases link_chains_mem _ _ _ _ hop with h | h
  · exact Or.inl h
  · simp only [List.mem_append] at h
    rcases h with (h | h) | h
    · exact Or.inr h
    · exact Or.inl (link_fanout_mem _ _ _ _ h)
    · simp only [unref_link_pads, List.mem_map] at h
      obtain ⟨_, _, rfl⟩ := h
      exact Or.inl rfl

theorem add_elements_to_pipeline_data (env : Engine) (data : ApplicationContext) :
    (add_elements_to_pipeline env data).data = data := by
  unfold add_elements_to_pipeline
  simp only
  split
  · rfl
  · split
    · rfl
    · split <;> rfl

theorem setup_videomixer_layout_data (env : Engine) (data : ApplicationContext) :
    (setup_videomixer_layout env data).data = data := by
  unfold setup_videomixer_layout
  simp only
  split <;> rfl

theorem link_pipeline_elements_data (env : Engine) (data : ApplicationContext) :
    (link_pipeline_elements env data).data = data := rfl

theorem create_pipeline_data (env : Engine) (data0 : ApplicationContext) :
    (create_pipeline env data0).data = create_elements env data0 := by
  unfold create_pipeline
  simp only [add_elements_to_pipeline_data, setup_videomixer_layout_data,
    link_pipeline_elements_data, create_pipeline_elements_data]
  split
  · rfl
  · split
    · rfl
    · split
      · rfl
      · split <;> rfl

/-- Where an action of `create_pipeline` comes from: element creation, a
diagnostic of `create_pipeline` itself, or, after each earlier step succeeded,
insertion, layout or linking on the created context. -/
theorem create_pipeline_mem (env : Engine) (data0 : ApplicationContext) (op : Op)
    (hop : op ∈ (create_pipeline env data0).ops) :
    op ∈ (create_pipeline_elements env data0).ops
    ∨ (∃ text, op = Op.g_printerr text)
    ∨ ((create_pipeline_elements env data0).code = 0
        ∧ (op ∈ (add_elements_to_pipeline env (create_elements env data0)).ops
          ∨ op ∈ (setup_videomixer_layout env (create_elements env data0)).ops
          ∨ op ∈ (link_pipeline_elements env (create_elements env data0)).ops)) := by
  unfold create_pipeline at hop
  simp only [add_elements_to_pipeline_data, setup_videomixer_layout_data,
    create_pipeline_elements_data] at hop
  split at hop
  · simp only [List.mem_append, List.mem_singleton] at hop
    rcases hop with h | rfl
    · exact Or.inl h
    · exact Or.inr (Or.inl ⟨_, rfl⟩)
  · rename_i hc
    have hc0 : (create_pipeline_elements env data0).code = 0 := by simpa using hc
    split at hop
    · simp only [List.mem_append, List.mem_singleton] at hop
      rcases hop with (h | h) | rfl
      · exact Or.inl h
      · exact Or.inr (Or.inr ⟨hc0, Or.inl h⟩)
      · exact Or.inr (Or.inl ⟨_, rfl⟩)
    · split at hop
      · simp only [List.mem_append, List.mem_singleton] at hop
        rcases hop with ((h | h) | h) | rfl
        · exact Or.inl h
        · exact Or.inr (Or.inr ⟨hc0, Or.inl h⟩)
        · exact Or.inr (Or.inr ⟨hc0, Or.inr (Or.inl h)⟩)
        · exact Or.inr (Or.inl ⟨_, rfl⟩)
      · split at hop
        · simp only [List.mem_append, List.mem_singleton] at hop
          rcases hop with (((h | h) | h) | h) | rfl
          · exact Or.inl h
          · exact Or.inr (Or.inr ⟨hc0, Or.inl h⟩)
          · exact Or.inr (Or.inr ⟨hc0, Or.inr (Or.inl h)⟩)
          · exact Or.inr (Or.inr ⟨hc0, Or.inr (Or.inr h)⟩)
          · exact Or.inr (Or.inl ⟨_, rfl⟩)
        · simp only [List.mem_append] at hop
          rcases hop with ((h | h) | h) | h
          · exact Or.inl h
          · exact Or.inr (Or.inr ⟨hc0, Or.inl h⟩)
          · exact Or.inr (Or.inr ⟨hc0, Or.inr (Or.inl h)⟩)
          · exact Or.inr (Or.inr ⟨hc0, Or.inr (Or.inr h)⟩)

theorem range_max_sources : List.range MAX_SOURCES = [0, 1, 2] := by decide

/-- After a successful `create_pipeline_elements` no unit of the local graph is `NULL`. -/
theorem local_units_created (env : Engine) (data0 : ApplicationContext)
    (h : (create_pipeline_elements env data0).code = 0) :
    ∀ e ∈ local_units (create_elements env data0), e.isSome = true := by
  obtain ⟨_, _, he, _⟩ := create_pipeline_elements_ok env data0 h
  have hall := (ENSURE_INITED_none _).1 he
  have hall2 : ∀ (e : GstElementPtr) (y : CStr),
      (e, y) ∈ ensure_inited_list (create_elements env data0) → e.isSome = true :=
    fun e y hy => hall (e, y) hy
  intro e he
  simp only [local_units, List.mem_cons, List.mem_singleton, List.not_mem_nil,
    or_false] at he
  rcases he with rfl | rfl | rfl | rfl | rfl | rfl | rfl | rfl | rfl | rfl | rfl | rfl | rfl
    | rfl | rfl | rfl | rfl
  · exact hall2 _ "source[i]".toList (by simp [ensure_inited_list, range_max_sources])
  · exact hall2 _ "source[i]".toList (by simp [ensure_inited_list, range_max_sources])
  · exact hall2 _ "source[i]".toList (by simp [ensure_inited_list, range_max_sources])
  · exact hall2 _ "audio_sink[i]".toList (by simp [ensure_inited_list, range_max_sources])
  · exact hall2 _ "audio_sink[i]".toList (by simp [ensure_inited_list, range_max_sources])
  · exact hall2 _ "video_scale[i]".toList (by simp [ensure_inited_list, range_max_sources])
  · exact hall2 _ "video_scale[i]".toList (by simp [ensure_inited_list, range_max_sources])
  · exact hall2 _ "video_scale[i]".toList (by simp [ensure_inited_list, range_max_sources])
  · exact hall2 _ "audio_convert".toList (by simp [ensure_inited_list, range_max_sources])
  · exact hall2 _ "audio_resample".toList (by simp [ensure_inited_list, range_max_sources])
  · exact hall2 _ "audio_device_sink".toList (by simp [ensure_inited_list, range_max_sources])
  · exact hall2 _ "audio_tee".toList (by simp [ensure_inited_list, range_max_sources])
  · exact hall2 _ "device_audio_queue".toList (by simp [ensure_inited_list, range_max_sources])
  · exact hall2 _ "videomixer".toList (by simp [ensure_inited_list, range_max_sources])
  · exact hall2 _ "video_tee".toList (by simp [ensure_inited_list, range_max_sources])
  · exact hall2 _ "device_video_queue".toList (by simp [ensure_inited_list, range_max_sources])
  · exact hall2 _ "video_device_sink".toList (by simp [ensure_inited_list, range_max_sources])

/-- The kinds of action `create_pipeline` can perform. -/
theorem create_pipeline_kinds (env : Engine) (data0 : ApplicationContext) (op : Op)
    (hop : op ∈ (create_pipeline env data0).ops) :
    op.wiring = true
    ∨ op ∈ creation_ops data0.streaming_enabled
    ∨ ((create_pipeline_elements env data0).code = 0
        ∧ ∃ e, op = Op.gst_bin_add (create_elements env data0).pipeline e
          ∧ (e ∈ local_units (create_elements env data0)
            ∨ (data0.streaming_enabled = true
                ∧ e ∈ network_units (create_elements env data0) ∧ e.isSome = true)))
    ∨ (∃ j, j < MAX_SOURCES ∧ op = Op.gst_element_get_request_pad
          (create_elements env data0).videomixer "sink_%u".toList j)
    ∨ op ∈ fanout_pad_ops (create_elements env data0) := by
  rcases create_pipeline_mem env data0 op hop with h | ⟨_, rfl⟩ | ⟨hc, h | h | h⟩
  · rcases create_pipeline_elements_mem env data0 op h with h | h
    · exact Or.inr (Or.inl h)
    · exact Or.inl h
  · exact Or.inl rfl
  · rcases add_elements_to_pipeline_mem env _ op h with ⟨_, rfl⟩ | ⟨e, he, h2⟩
    · exact Or.inl rfl
    · exact Or.inr (Or.inr (Or.inl ⟨hc, e, he, h2⟩))
  · rcases setup_videomixer_layout_mem env _ op h with h | h
    · exact Or.inl h
    · exact Or.inr (Or.inr (Or.inr (Or.inl h)))
  · rcases link_pipeline_elements_mem env _ op h with h | h
    · exact Or.inl h
    · exact Or.inr (Or.inr (Or.inr (Or.inr h)))

/-! ## C5: no network sub-graph without a credential -/

/-- C5. With three positional arguments, after `create_pipeline` (whether it
succeeded or not) the handles of the audio encoder, video encoder, muxer,
network sink and both network-path queues are `NULL`; no element was requested
from the factories `voaacenc`, `x264enc`, `flvmux`, `rtmpsink` or under the
names of the two network-path queues; every element inserted into the pipeline
container is a unit of the local graph and none of the network handles was
passed to `gst_bin_add`; and every pad requested from a splitter (template
`src_%u`) is the first request on that splitter. -/
theorem network_subgraph_absent (env : Engine) (argv : List CStr) (data0 : ApplicationContext)
    (hargs : (positional argv).length = 3) :
    (∀ e ∈ network_units (create_pipeline env (parse_command_line argv data0).data).data,
        e = none)
    ∧ (∀ factory name,
        Op.gst_element_factory_make factory name
            ∈ (create_pipeline env (parse_command_line argv data0).data).ops →
          factory ∉ ["voaacenc".toList, "x264enc".toList, "flvmux".toList, "rtmpsink".toList]
          ∧ name ∉ ["stream_audio_queue".toList, "stream_video_queue".toList])
    ∧ (∀ bin e,
        Op.gst_bin_add bin e ∈ (create_pipeline env (parse_command_line argv data0).data).ops →
          e ∈ local_units (create_pipeline env (parse_command_line argv data0).data).data
          ∧ e ∉ network_units (create_pipeline env (parse_command_line argv data0).data).data)
    ∧ (∀ element n,
        Op.gst_element_get_request_pad element "src_%u".toList n
            ∈ (create_pipeline env (parse_command_line argv data0).data).ops →
          n = 0) := by
  obtain ⟨_, hs, _⟩ := parse_not_streaming argv data0 hargs
  have hnet : ∀ e ∈ network_units (create_elements env (parse_command_line argv data0).data),
      e = none := by
    intro e he
    simp only [network_units, create_elements, hs, Bool.false_eq_true, if_false,
      List.mem_cons, List.mem_singleton, List.not_mem_nil, or_false] at he
    rcases he with rfl | rfl | rfl | rfl | rfl | rfl <;> rfl
  have hs1 : (create_elements env (parse_command_line argv data0).data).streaming_enabled
      = false := hs
  rw [create_pipeline_data]
  refine ⟨hnet, fun factory name hop => ?_, fun bin e hop => ?_, fun element n hop => ?_⟩
  · rcases create_pipeline_kinds env _ _ hop with h | h | ⟨_, e, h, _⟩ | ⟨j, _, h⟩ | h
    · cases h
    · rcases creation_ops_mem _ _ h with ⟨_, h1⟩ | ⟨f, m, h1, h2⟩
      · cases h1
      · injection h1 with h3 h4
        subst h3 h4
        exact h2 hs
    · cases h
    · cases h
    · simp [fanout_pad_ops, hs1] at h
  · rcases create_pipeline_kinds env _ _ hop with h | h | ⟨hc, e1, h, h2⟩ | ⟨j, _, h⟩ | h
    · cases h
    · rcases creation_ops_mem _ _ h with ⟨_, h1⟩ | ⟨f, m, h1, _⟩ <;> cases h1
    · injection h with _ h3
      subst h3
      rcases h2 with h2 | ⟨h2, _⟩
      · refine ⟨h2, fun hn => ?_⟩
        have h5 := local_units_created env _ hc e h2
        rw [hnet e hn] at h5
        cases h5
      · rw [hs] at h2
        cases h2
    · cases h
    · simp [fanout_pad_ops, hs1] at h
  · rcases create_pipeline_kinds env _ _ hop with h | h | ⟨_, e, h, _⟩ | ⟨j, _, h⟩ | h
    · cases h
    · rcases creation_ops_mem _ _ h with ⟨_, h1⟩ | ⟨f, m, h1, _⟩ <;> cases h1
    · cases h
    · injection h with _ h2 _
      exact absurd h2 (by decide)
    · simp only [fanout_pad_ops, hs1, Bool.false_eq_true, if_false, List.append_nil,
        List.mem_append, List.mem_cons, List.mem_singleton, List.not_mem_nil, or_false] at h
      rcases h with (h | h) | (h | h)
      · injection h with _ _ h3
      · injection h with _ _ h3
      · cases h
      · cases h

/-- C5, at the sample run without credential: the network sink handle is
`NULL` and the video encoder was never requested. -/
theorem network_subgraph_absent_witness :
    (create_pipeline sample_engine (parse_command_line sample_argv3 sample_uninit).data).data.rtmp_sink
      = none
    ∧ Op.gst_element_factory_make "x264enc".toList "x264_enc".toList
        ∉ (create_pipeline sample_engine (parse_command_line sample_argv3 sample_uninit).data).ops :=
  have h := network_subgraph_absent sample_engine sample_argv3 sample_uninit (by decide)
  ⟨h.1 _ (by simp [network_units]),
    fun hmem => (h.2.1 _ _ hmem).1 (by decide)⟩

/-! ## C6: the consumer a new pad is linked to -/

theorem find_source_of_distinct (data : ApplicationContext) (i : Nat) (hi : i < MAX_SOURCES)
    (hdistinct : ∀ j k, j < MAX_SOURCES → k < MAX_SOURCES →
      data.source j = data.source k → j = k) :
    find_source data (data.source i) 0 MAX_SOURCES = some i := by
  have h01 : data.source 0 ≠ data.source 1 := fun h =>
    absurd (hdistinct 0 1 (by decide) (by decide) h) (by decide)
  have h02 : data.source 0 ≠ data.source 2 := fun h =>
    absurd (hdistinct 0 2 (by decide) (by decide) h) (by decide)
  have h12 : data.source 1 ≠ data.source 2 := fun h =>
    absurd (hdistinct 1 2 (by decide) (by decide) h) (by decide)
  simp only [MAX_SOURCES] at hi ⊢
  interval_cases i
  · simp [find_source]
  · simp [find_source, h01]
  · simp [find_source, h02, h12]

theorem video_is_not_audio (t : CStr)
    (hv : g_str_has_prefix t "video/x-raw".toList = true) :
    g_str_has_prefix t "audio/x-raw".toList = false := by
  cases t with
  | nil => simp [ g_str_has_prefix, List.isPrefixOf] at hv
  | cons c t =>
    simp only [ g_str_has_prefix, String.toList, List.isPrefixOf, Bool.and_eq_true,
      beq_iff_eq] at hv
    have hc := hv.1
    subst hc
    simp [ g_str_has_prefix, List.isPrefixOf]

/-- What the handler does once a consumer is selected: it looks up the static
pad `sink` of that element and of no other, and the only link it attempts is
from the new pad to that pad. -/
theorem pad_added_handler_links (env : Engine) (a : PadAdded) (data : ApplicationContext)
    (element : GstElementPtr)
    (h : link_target data a.src a.new_pad_type = some element) :
    resolved_consumers (pad_added_handler env a data).2 = [element]
    ∧ (∀ x y, Op.gst_pad_link x y ∈ (pad_added_handler env a data).2 →
        x = a.new_pad ∧ y = env.gst_element_get_static_pad element "sink".toList)
    ∧ ((env.gst_element_get_static_pad element "sink".toList).isSome = true →
        Op.gst_pad_link a.new_pad (env.gst_element_get_static_pad element "sink".toList)
          ∈ (pad_added_handler env a data).2) := by
  unfold pad_added_handler
  simp only [h]
  cases hpad : env.gst_element_get_static_pad element "sink".toList with
  | none =>
    cases hc : a.new_pad_caps <;> simp [resolved_consumers]
  | some pad =>
    cases hc : a.new_pad_caps <;>
      cases hl : env.gst_pad_link a.new_pad (some pad) <;> simp [resolved_consumers]

/-- C6 fails as stated: in the constructed sample context, whose three source
handles are 1, 2 and 3, a pad of source 0 with negotiated type `audio/mpeg`
(which has prefix `audio`) is resolved to no consumer; the handler looks up no
pad, attempts no link and prints its diagnostic. -/
theorem audio_mpeg_pad_has_no_target :
    g_str_has_prefix "audio/mpeg".toList "audio".toList = true
    ∧ sample_context.source 0 = some 1
    ∧ sample_context.source 1 = some 2
    ∧ sample_context.source 2 = some 3
    ∧ link_target sample_context (sample_context.source 0) "audio/mpeg".toList = none
    ∧ link_target sample_context (sample_context.source 0) "audio/mpeg".toList
        ≠ some sample_context.audio_convert
    ∧ (pad_added_handler sample_engine
        (sample_pad (sample_context.source 0) "audio/mpeg".toList) sample_context).2
        = [Op.g_print "Received new pad 'src_0' from 'source':\n".toList,
           Op.g_printerr "Error: failed to get sink pad in pad_added_handler".toList,
           Op.gst_caps_unref (some 600)] := by
  refine ⟨by decide, by decide, by decide, by decide, by decide, by decide, by decide⟩

/-- C6 (amended). For pairwise distinct source handles, source index `i` below
3 and negotiated type `t`, the handler invoked with the handle of source `i`
selects: the `audio_convert` element when `t` has prefix `audio/x-raw` and `i`
is 0; the element `audio_sink[i]` when `t` has prefix `audio/x-raw` and `i` is not 0;
the element `video_scale[i]` when `t` has prefix `video/x-raw`.  After
construction `audio_sink[i]` for `i` in 1, 2 is the element made by `fakesink`
under the name `fake_audio_sink_i`, and `video_scale[i]` the one made by
`videoscale` under the name `video_scale_i`. -/
theorem pad_added_link_target (data : ApplicationContext) (i : Nat) (t : CStr)
    (hi : i < MAX_SOURCES)
    (hdistinct : ∀ j k, j < MAX_SOURCES → k < MAX_SOURCES →
      data.source j = data.source k → j = k) :
    ( g_str_has_prefix t "audio/x-raw".toList = true → i = AUDIO_FROM_SOURCE_INDEX →
        link_target data (data.source i) t = some data.audio_convert)
    ∧ ( g_str_has_prefix t "audio/x-raw".toList = true → i ≠ AUDIO_FROM_SOURCE_INDEX →
        link_target data (data.source i) t = some (data.audio_sink i))
    ∧ ( g_str_has_prefix t "video/x-raw".toList = true →
        link_target data (data.source i) t = some (data.video_scale i))
    ∧ (∀ (env : Engine) (data0 : ApplicationContext),
        (i ≠ AUDIO_FROM_SOURCE_INDEX →
          (create_pipeline env data0).data.audio_sink i
            = env.gst_element_factory_make "fakesink".toList
                ("fake_audio_sink_".toList ++ fmt_i i))
        ∧ (create_pipeline env data0).data.video_scale i
            = env.gst_element_factory_make "videoscale".toList
                ("video_scale_".toList ++ fmt_i i)) := by
  have hfind := find_source_of_distinct data i hi hdistinct
  refine ⟨fun ha h0 => ?_, fun ha h0 => ?_, fun hv => ?_, fun env data0 => ?_⟩
  · unfold link_target
    rw [if_pos ha, hfind]
    simp [h0]
  · unfold link_target
    rw [if_pos ha, hfind]
    simp [h0]
  · have hna := video_is_not_audio t hv
    unfold link_target
    rw [if_neg (by rw [hna]; exact Bool.false_ne_true), if_pos hv, hfind]
  · rw [create_pipeline_data]
    refine ⟨fun h0 => ?_, ?_⟩
    · simp [create_elements, hi, h0]
    · simp [create_elements, hi]

/-- C6 (amended), in the constructed sample context: raw audio of source 2 goes
to `fake_audio_sink_2` (handle 10), raw audio of source 0 to `audio_convert`
(handle 4), raw video of source 1 to `video_scale_1` (handle 14). -/
theorem pad_added_link_target_witness :
    link_target sample_context (sample_context.source 2) "audio/x-raw".toList = some (some 10)
    ∧ link_target sample_context (sample_context.source 0) "audio/x-raw".toList
        = some (some 4)
    ∧ link_target sample_context (sample_context.source 1) "video/x-raw".toList
        = some (some 14) :=
  have hd : ∀ j k, j < MAX_SOURCES → k < MAX_SOURCES →
      sample_context.source j = sample_context.source k → j = k := by
    intro j k hj hk
    simp only [MAX_SOURCES] at hj hk
    interval_cases j <;> interval_cases k <;> decide
  ⟨(pad_added_link_target sample_context 2 "audio/x-raw".toList (by decide) hd).2.1
      (by decide) (by decide),
    (pad_added_link_target sample_context 0 "audio/x-raw".toList (by decide) hd).1
      (by decide) (by decide),
    (pad_added_link_target sample_context 1 "video/x-raw".toList (by decide) hd).2.2.1
      (by decide)⟩

/-! ## C7: resolution does not depend on the order of arrival -/

theorem pad_added_handler_resolution (env : Engine) (a : PadAdded) (data : ApplicationContext) :
    (pad_added_handler env a data).1 = data
    ∧ resolved_consumers (pad_added_handler env a data).2
        = (link_target data a.src a.new_pad_type).toList := by
  constructor
  · unfold pad_added_handler
    simp only
    split <;> rfl
  · cases ht : link_target data a.src a.new_pad_type with
    | none =>
      unfold pad_added_handler
      simp only [ht]
      cases hc : a.new_pad_caps <;> simp [resolved_consumers]
    | some element =>
      simpa using (pad_added_handler_links env a data element ht).1

theorem deliver_eq (arrivals : List (Engine × PadAdded)) (data : ApplicationContext) :
    deliver arrivals data
      = ((arrivals.map Prod.snd).map
          (fun a => (a, (link_target data a.src a.new_pad_type).toList)), data) := by
  induction arrivals with
  | nil => rfl
  | cons p rest ih =>
    obtain ⟨env, a⟩ := p
    have h := pad_added_handler_resolution env a data
    simp only [deliver, h.1, h.2, ih, List.map_cons]

/-- C7. The consumer a pad is resolved to is a function of the context, the
source handle and the negotiated type alone: it is the same whatever the
engine answers and whatever else the callback receives. The handler returns
the context it was given, so when the same arrivals are delivered in two
different orders (each delivery against an engine of its own), every arrival
is resolved to the same consumer in both. -/
theorem pad_resolution_order_independent (data : ApplicationContext)
    (first second : List (Engine × PadAdded))
    (hperm : (first.map Prod.snd).Perm (second.map Prod.snd)) :
    (deliver first data).2 = data
    ∧ (deliver second data).2 = data
    ∧ (deliver first data).1
        = (first.map Prod.snd).map
            (fun a => (a, (link_target data a.src a.new_pad_type).toList))
    ∧ (deliver first data).1.Perm (deliver second data).1
    ∧ (∀ (env1 env2 : Engine) (a b : PadAdded), a.src = b.src →
        a.new_pad_type = b.new_pad_type →
        resolved_consumers (pad_added_handler env1 a data).2
          = resolved_consumers (pad_added_handler env2 b data).2)
    ∧ (∀ (env : Engine) (a : PadAdded), (pad_added_handler env a data).1 = data) := by
  refine ⟨by rw [deliver_eq], by rw [deliver_eq], by rw [deliver_eq], ?_, ?_, ?_⟩
  · rw [deliver_eq, deliver_eq]
    exact hperm.map _
  · intro env1 env2 a b hsrc htype
    rw [(pad_added_handler_resolution env1 a data).2,
      (pad_added_handler_resolution env2 b data).2, hsrc, htype]
  · exact fun env a => (pad_added_handler_resolution env a data).1

/-- C7, for a raw audio pad of source 0 and a raw video pad of source 2
delivered in both orders, once against an engine that finds no pad at all. -/
theorem pad_resolution_order_independent_witness :
    (deliver
      [(sample_engine, sample_pad (some 1) "audio/x-raw".toList),
       (sample_engine, sample_pad (some 3) "video/x-raw".toList)] sample_context).1.Perm
    (deliver
      [({ sample_engine with gst_element_get_static_pad := fun _ _ => none },
          sample_pad (some 3) "video/x-raw".toList),
       (sample_engine, sample_pad (some 1) "audio/x-raw".toList)] sample_context).1 :=
  (pad_resolution_order_independent sample_context
    [(sample_engine, sample_pad (some 1) "audio/x-raw".toList),
     (sample_engine, sample_pad (some 3) "video/x-raw".toList)]
    [({ sample_engine with gst_element_get_static_pad := fun _ _ => none },
        sample_pad (some 3) "video/x-raw".toList),
     (sample_engine, sample_pad (some 1) "audio/x-raw".toList)]
    (List.Perm.swap _ _ [])).2.2.2.1

/-! ## C8: pads of other media types -/

/-- C8 fails as stated: for a subtitle pad (`text/x-raw`, neither audio nor
video) of source 1 the handler writes an error diagnostic to stderr. -/
theorem subtitle_pad_is_reported :
    g_str_has_prefix "text/x-raw".toList "audio".toList = false
    ∧ g_str_has_prefix "text/x-raw".toList "video".toList = false
    ∧ Op.g_printerr "Error: failed to get sink pad in pad_added_handler".toList
        ∈ (pad_added_handler sample_engine
            (sample_pad (sample_context.source 1) "text/x-raw".toList) sample_context).2 := by
  refine ⟨by decide, by decide, by decide⟩

theorem not_raw_of_not_kind (t : CStr) :
    ( g_str_has_prefix t "audio".toList = false →
        g_str_has_prefix t "audio/x-raw".toList = false)
    ∧ ( g_str_has_prefix t "video".toList = false →
        g_str_has_prefix t "video/x-raw".toList = false) := by
  constructor
  · intro h
    by_contra hc
    have hp : "audio/x-raw".toList <+: t := by
      simpa [ g_str_has_prefix] using hc
    have hq : "audio".toList <+: "audio/x-raw".toList := by decide
    have h2 : g_str_has_prefix t "audio".toList = true := by
      simpa [ g_str_has_prefix] using hq.trans hp
    rw [h] at h2
    cases h2
  · intro h
    by_contra hc
    have hp : "video/x-raw".toList <+: t := by
      simpa [ g_str_has_prefix] using hc
    have hq : "video".toList <+: "video/x-raw".toList := by decide
    have h2 : g_str_has_prefix t "video".toList = true := by
      simpa [ g_str_has_prefix] using hq.trans hp
    rw [h] at h2
    cases h2

/-- C8 (amended). For a pad whose negotiated type has neither prefix
`audio/x-raw` nor prefix `video/x-raw` (so for every type that is neither audio
nor video), whatever its source, the handler looks up no pad and attempts no
link; it prints its banner, writes the diagnostic
`Error: failed to get sink pad in pad_added_handler` to stderr, releases the
caps and returns, leaving the context as it was. -/
theorem other_pad_not_linked (env : Engine) (a : PadAdded) (data : ApplicationContext)
    (hna : g_str_has_prefix a.new_pad_type "audio/x-raw".toList = false)
    (hnv : g_str_has_prefix a.new_pad_type "video/x-raw".toList = false) :
    pad_added_handler env a data
      = (data,
          [Op.g_print ("Received new pad '".toList ++ a.new_pad_name ++ "' from '".toList
              ++ a.src_name ++ "':\n".toList),
           Op.g_printerr "Error: failed to get sink pad in pad_added_handler".toList]
          ++ (if a.new_pad_caps.isSome then [Op.gst_caps_unref a.new_pad_caps] else []))
    ∧ (∀ x y, Op.gst_pad_link x y ∉ (pad_added_handler env a data).2)
    ∧ (∀ element name,
        Op.gst_element_get_static_pad element name ∉ (pad_added_handler env a data).2) := by
  have ht : link_target data a.src a.new_pad_type = none := by
    unfold link_target
    rw [if_neg (by rw [hna]; exact Bool.false_ne_true),
      if_neg (by rw [hnv]; exact Bool.false_ne_true)]
  have heq : pad_added_handler env a data
      = (data,
          [Op.g_print ("Received new pad '".toList ++ a.new_pad_name ++ "' from '".toList
              ++ a.src_name ++ "':\n".toList),
           Op.g_printerr "Error: failed to get sink pad in pad_added_handler".toList]
          ++ (if a.new_pad_caps.isSome then [Op.gst_caps_unref a.new_pad_caps] else [])) := by
    unfold pad_added_handler
    simp only [ht]
    rfl
  refine ⟨heq, fun x y => ?_, fun element name => ?_⟩
  · rw [heq]
    cases a.new_pad_caps <;> simp
  · rw [heq]
    cases a.new_pad_caps <;> simp

/-- C8 (amended), for the subtitle pad of the sample run. -/
theorem other_pad_not_linked_witness :
    Op.gst_pad_link (some 500) (sample_engine.gst_element_get_static_pad (some 14) "sink".toList)
      ∉ (pad_added_handler sample_engine
          (sample_pad (some 2) "text/x-raw".toList) sample_context).2 :=
  (other_pad_not_linked sample_engine (sample_pad (some 2) "text/x-raw".toList)
    sample_context (by decide) (by decide)).2.1 _ _

/-! ## C9: insertion failures -/

/-- C9 (the code departs from the claim). In the sample run without
credential, on an engine whose pipeline refuses `audio_convert`, the refused
`gst_bin_add` is performed inside `gst_bin_add_many` and its result is lost:
`add_elements_to_pipeline` returns 0, `create_pipeline` returns 0 and `main`
goes on to request the PLAYING state. -/
theorem refused_bulk_insertion_goes_unnoticed :
    (create_pipeline_elements sample_engine_rejecting_audio_convert
        (parse_command_line sample_argv3 sample_uninit).data).code = 0
    ∧ sample_context.pipeline = some 100
    ∧ sample_context.audio_convert = some 4
    ∧ sample_engine_rejecting_audio_convert.gst_bin_add (some 100) (some 4) = false
    ∧ Op.gst_bin_add (some 100) (some 4)
        ∈ (add_elements_to_pipeline sample_engine_rejecting_audio_convert
            (create_pipeline_elements sample_engine_rejecting_audio_convert
              (parse_command_line sample_argv3 sample_uninit).data).data).ops
    ∧ (add_elements_to_pipeline sample_engine_rejecting_audio_convert
        (create_pipeline_elements sample_engine_rejecting_audio_convert
          (parse_command_line sample_argv3 sample_uninit).data).data).code = 0
    ∧ (create_pipeline sample_engine_rejecting_audio_convert
        (parse_command_line sample_argv3 sample_uninit).data).code = 0
    ∧ Op.gst_element_set_state (some 100) GstState.PLAYING
        ∈ (main sample_engine_rejecting_audio_convert sample_argv3 sample_uninit).ops := by
  refine ⟨by decide, by decide, by decide, by decide, by decide, by decide, by decide,
    by decide⟩

/-! ## C10: a missing input file -/

theorem tmp_buf_of_fits (cwd path : CStr) (h : (resolved_path cwd path).length < PATH_MAX) :
    tmp_buf cwd path = resolved_path cwd path := by
  unfold tmp_buf resolved_path at *
  split
  · rename_i hp
    rw [if_pos hp] at h
    exact List.take_of_length_le (by simp only [PATH_MAX] at h ⊢; omega)
  · rename_i hp
    rw [if_neg hp] at h
    exact List.take_of_length_le (by simp only [PATH_MAX] at h ⊢; omega)

/-- The loop over the source paths stops at the first file that `access` does
not find, with the diagnostic naming it. -/
theorem set_source_uris_missing (env : Engine) (data : ApplicationContext) (cwd : CStr)
    (n i k : Nat) (hik : i ≤ k) (hkn : k < i + n)
    (hmissing : env.access (tmp_buf cwd (data.source_paths k)) = false) :
    (set_source_uris env data cwd i n).1 = 1
    ∧ ∃ j, i ≤ j ∧ j ≤ k
      ∧ env.access (tmp_buf cwd (data.source_paths j)) = false
      ∧ (∀ m, i ≤ m → m < j → env.access (tmp_buf cwd (data.source_paths m)) = true)
      ∧ Op.g_printerr ("Error: file '".toList ++ tmp_buf cwd (data.source_paths j)
          ++ "' does not exist!\n".toList) ∈ (set_source_uris env data cwd i n).2 := by
  induction n generalizing i with
  | zero => omega
  | succ n ih =>
    unfold set_source_uris
    simp only
    cases hacc : env.access (tmp_buf cwd (data.source_paths i)) with
    | false =>
      simp only [Bool.false_eq_true, if_false]
      exact ⟨trivial, i, le_refl _, hik, hacc, fun m h1 h2 => by omega, by simp⟩
    | true =>
      simp only [if_true]
      have hne : i ≠ k := by
        intro h
        subst h
        rw [hmissing] at hacc
        cases hacc
      obtain ⟨h1, j, hj1, hj2, hj3, hj4, hj5⟩ := ih (i + 1) (by omega) (by omega)
      refine ⟨h1, j, by omega, hj2, hj3, fun m hm1 hm2 => ?_, ?_⟩
      · by_cases hmi : m = i
        · subst hmi
          exact hacc
        · exact hj4 m (by omega) hm2
      · simp only [List.cons_append, List.nil_append, List.mem_cons]
        exact Or.inr (Or.inr hj5)

theorem create_pipeline_elements_code (env : Engine) (data0 : ApplicationContext) :
    (create_pipeline_elements env data0).code = 0
    ∨ (create_pipeline_elements env data0).code = 1 := by
  unfold create_pipeline_elements
  simp only
  split
  · exact Or.inr rfl
  · split
    · exact Or.inr rfl
    · split
      · exact Or.inr rfl
      · split
        · exact Or.inr rfl
        · exact Or.inl rfl

theorem getcwd_some (env : Engine) (cwd : CStr) (size : Nat)
    (h : getcwd env size = some cwd) : env.cwd = some cwd := by
  unfold getcwd at h
  split at h
  · split at h
    · rename_i heq _
      rw [heq, ← Option.some.inj h]
    · cases h
  · cases h

theorem create_pipeline_code_of_elements (env : Engine) (data0 : ApplicationContext)
    (h : (create_pipeline_elements env data0).code ≠ 0) :
    (create_pipeline env data0).code = 1
    ∧ (create_pipeline env data0).ops = (create_pipeline_elements env data0).ops
        ++ [Op.g_printerr "Error: failed to create pipeline elements\n".toList] := by
  unfold create_pipeline
  simp only [h, ne_eq, not_false_eq_true, if_true, and_self]

theorem main_of_create_failure (env : Engine) (argv : List CStr) (data : ApplicationContext)
    (hparse : (parse_command_line argv data).code = 0)
    (hcreate : (create_pipeline env (parse_command_line argv data).data).code ≠ 0) :
    (main env argv data).outcome = Outcome.returned 1
    ∧ (main env argv data).ops
        = [Op.g_print "Parsing command line...\n".toList] ++ (parse_command_line argv data).ops
          ++ [Op.g_print "Done.\n".toList, Op.g_print "Initializing GStreamer...\n".toList,
              Op.gst_init, Op.g_print "Done.\n".toList,
              Op.g_print "Creating pipeline...\n".toList]
          ++ (create_pipeline env (parse_command_line argv data).data).ops
          ++ [Op.g_printerr "Error: unable to setup pipeline\n".toList]
          ++ free_resources (create_pipeline env (parse_command_line argv data).data).data := by
  unfold main
  simp only [hparse, hcreate, ne_eq, not_true_eq_false, not_false_eq_true, if_true, if_false,
    and_self]

theorem parse_command_line_ops (argv : List CStr) (data : ApplicationContext) (op : Op)
    (hop : op ∈ (parse_command_line argv data).ops) : ∃ text, op = Op.g_print text := by
  unfold parse_command_line at hop
  simp only at hop
  split at hop
  · simp at hop
  · split at hop
    · simp only [List.mem_singleton] at hop
      exact ⟨_, hop⟩
    · simp only [List.mem_singleton] at hop
      exact ⟨_, hop⟩

theorem create_pipeline_no_set_state (env : Engine) (data0 : ApplicationContext)
    (element : GstElementPtr) (state : GstState) :
    Op.gst_element_set_state element state ∉ (create_pipeline env data0).ops := by
  intro hop
  rcases create_pipeline_kinds env _ _ hop with h | h | ⟨_, e, h, _⟩ | ⟨j, _, h⟩ | h
  · cases h
  · rcases creation_ops_mem _ _ h with ⟨_, h1⟩ | ⟨f, m, h1, _⟩ <;> cases h1
  · cases h
  · cases h
  · unfold fanout_pad_ops at h
    simp only [List.mem_append, List.mem_cons, List.mem_singleton, List.not_mem_nil,
      or_false] at h
    rcases h with (((h | h) | h) | (h | h)) | h
    · cases h
    · cases h
    · split at h
      · simp at h
      · simp at h
    · cases h
    · cases h
    · split at h
      · simp at h
      · simp at h

theorem ensure_inited_of_engine (env : Engine) (data0 : ApplicationContext)
    (hmake : ∀ factory name, (env.gst_element_factory_make factory name).isSome = true) :
    ENSURE_INITED (ensure_inited_list (create_elements env data0)) = none := by
  rw [ENSURE_INITED_none]
  cases hs : data0.streaming_enabled <;>
    simp [ensure_inited_list, create_elements, hs, range_max_sources, hmake,
      AUDIO_FROM_SOURCE_INDEX, MAX_SOURCES, or_imp, forall_and] <;>
    refine ⟨fun a ha => ?_, fun a ha => ?_, fun a ha => ?_⟩ <;>
    simp only [ha, if_true] <;> (try split) <;> exact hmake _ _

/-- The actions of `create_pipeline_elements` once every element exists and
the working directory is known: the creation block, the working directory line,
and the loop over the source paths. -/
theorem create_pipeline_elements_paths (env : Engine) (data0 : ApplicationContext) (cwd : CStr)
    (hpipe : (create_elements env data0).pipeline.isSome = true)
    (hinit : ENSURE_INITED (ensure_inited_list (create_elements env data0)) = none)
    (hcwd : getcwd env PATH_MAX = some cwd)
    (hfail : (set_source_uris env (create_elements env data0) cwd 0 MAX_SOURCES).1 ≠ 0) :
    (create_pipeline_elements env data0).ops
      = creation_ops data0.streaming_enabled
        ++ [Op.g_print ("Current working dir: ".toList ++ cwd ++ "\n".toList)]
        ++ (set_source_uris env (create_elements env data0) cwd 0 MAX_SOURCES).2 := by
  have hp : (create_elements env data0).pipeline.isNone = false := by
    cases h : (create_elements env data0).pipeline
    · rw [h] at hpipe; cases hpipe
    · rfl
  unfold create_pipeline_elements
  simp only [hp, hinit, hcwd, hfail, Bool.false_eq_true, if_false, ne_eq, not_false_eq_true,
    if_true]

theorem set_source_uris_found (env : Engine) (data : ApplicationContext) (cwd : CStr)
    (n i : Nat)
    (h : ∀ m, i ≤ m → m < i + n → env.access (tmp_buf cwd (data.source_paths m)) = true) :
    (set_source_uris env data cwd i n).1 = 0 := by
  induction n generalizing i with
  | zero => rfl
  | succ n ih =>
    unfold set_source_uris
    simp only [h i (le_refl _) (by omega), if_true]
    exact ih (i + 1) (fun m h1 h2 => h m (by omega) (by omega))

theorem create_pipeline_elements_succeeds (env : Engine) (data0 : ApplicationContext)
    (cwd : CStr)
    (hpipe : (create_elements env data0).pipeline.isSome = true)
    (hinit : ENSURE_INITED (ensure_inited_list (create_elements env data0)) = none)
    (hcwd : getcwd env PATH_MAX = some cwd)
    (hfound : (set_source_uris env (create_elements env data0) cwd 0 MAX_SOURCES).1 = 0) :
    (create_pipeline_elements env data0).code = 0 := by
  have hp : (create_elements env data0).pipeline.isNone = false := by
    cases h : (create_elements env data0).pipeline
    · rw [h] at hpipe; cases hpipe
    · rfl
  unfold create_pipeline_elements
  simp only [hp, hinit, hcwd, hfound, Bool.false_eq_true, if_false, ne_eq, not_true_eq_false]

theorem create_pipeline_succeeds (env : Engine) (data0 : ApplicationContext)
    (h1 : (create_pipeline_elements env data0).code = 0)
    (h2 : (add_elements_to_pipeline env (create_elements env data0)).code = 0)
    (h3 : (setup_videomixer_layout env (create_elements env data0)).code = 0)
    (h4 : (link_pipeline_elements env (create_elements env data0)).code = 0) :
    (create_pipeline env data0).code = 0 := by
  unfold create_pipeline
  simp only [add_elements_to_pipeline_data, setup_videomixer_layout_data,
    create_pipeline_elements_data, h1, h2, h3, h4, ne_eq, not_true_eq_false, if_false]

theorem main_ops_of_run (env : Engine) (argv : List CStr) (data : ApplicationContext)
    (hparse : (parse_command_line argv data).code = 0)
    (hcreate : (create_pipeline env (parse_command_line argv data).data).code = 0)
    (op : Op)
    (hop : op ∈ (run_pipeline env
      (create_pipeline env (parse_command_line argv data).data).data).ops) :
    op ∈ (main env argv data).ops := by
  unfold main
  simp only [hparse, hcreate, ne_eq, not_true_eq_false, if_false]
  split
  · simp [hop]
  · split <;> simp [hop]

/-- C10 fails as stated: with a first source path of 5000 slashes, which the
system refuses as too long, the program tests the first 4095 chars of it,
finds that name, constructs the pipeline, requests the PLAYING state and
returns 0 at end-of-stream. -/
theorem overlong_missing_path_is_played :
    (positional overlong_argv).length = 3
    ∧ resolved_path "/home/user".toList
        ((parse_command_line overlong_argv sample_uninit).data.source_paths 0) = overlong_path
    ∧ sample_engine_name_too_long.access overlong_path = false
    ∧ (main sample_engine_name_too_long overlong_argv sample_uninit).outcome
        = Outcome.returned 0
    ∧ Op.gst_element_set_state (some 100) GstState.PLAYING
        ∈ (main sample_engine_name_too_long overlong_argv sample_uninit).ops := by
  have hparse : (parse_command_line overlong_argv sample_uninit).code = 0 := by decide
  have hpath0 : (parse_command_line overlong_argv sample_uninit).data.source_paths 0
      = overlong_path := rfl
  have hpath1 : (parse_command_line overlong_argv sample_uninit).data.source_paths 1
      = "/data/b.mp4".toList := rfl
  have hpath2 : (parse_command_line overlong_argv sample_uninit).data.source_paths 2
      = "/data/c.mp4".toList := rfl
  have hhead : overlong_path.head? = some '/' := rfl
  have hmin : min (PATH_MAX - 1) 5000 = 4095 := by decide
  have hacc : ∀ path, sample_engine_name_too_long.access path
      = decide (path.length < PATH_MAX) := fun _ => rfl
  have hbuf : tmp_buf "/home/user".toList overlong_path = List.replicate 4095 '/' := by
    unfold tmp_buf
    rw [if_pos hhead]
    unfold snprintf overlong_path
    rw [List.take_replicate, hmin]
  have hfound : (set_source_uris sample_engine_name_too_long
      (create_elements sample_engine_name_too_long
        (parse_command_line overlong_argv sample_uninit).data) "/home/user".toList 0
      MAX_SOURCES).1 = 0 := by
    apply set_source_uris_found
    intro m _ hm
    have hpaths : (create_elements sample_engine_name_too_long
        (parse_command_line overlong_argv sample_uninit).data).source_paths
        = (parse_command_line overlong_argv sample_uninit).data.source_paths := rfl
    rw [hpaths]
    simp only [MAX_SOURCES] at hm
    interval_cases m
    · rw [hpath0, hbuf]
      rw [hacc, List.length_replicate]
      decide
    · rw [hpath1]; decide
    · rw [hpath2]; decide
  have hcreated := create_pipeline_elements_succeeds sample_engine_name_too_long
    (parse_command_line overlong_argv sample_uninit).data "/home/user".toList
    (by decide) (by decide) (by decide) hfound
  have hcreate := create_pipeline_succeeds sample_engine_name_too_long
    (parse_command_line overlong_argv sample_uninit).data hcreated
    (by decide) (by decide) (by decide)
  have hrun : (run_pipeline sample_engine_name_too_long
      (create_pipeline sample_engine_name_too_long
        (parse_command_line overlong_argv sample_uninit).data).data).outcome
      = Outcome.returned 0 := by
    rw [create_pipeline_data]
    decide
  refine ⟨by decide, ?_, ?_, ?_, ?_⟩
  · rw [hpath0]
    unfold resolved_path
    rw [if_pos hhead]
  · unfold overlong_path
    rw [hacc, List.length_replicate]
    decide
  · simpa using main_of_run _ _ _ hparse hcreate 0 hrun
  · apply main_ops_of_run _ _ _ hparse hcreate
    rw [create_pipeline_data]
    decide

/-- C10 (amended). For an accepted argument vector (3 or 4 positional arguments) whose
three source paths resolve to names shorter than `PATH_MAX`, in working
directory `cwd`: if the file of some source path `k` does not exist, `main`
returns 1 and never asks any element for the PLAYING state. When moreover the
engine creates every element and the pipeline, and `getcwd` succeeds, the
diagnostic `Error: file '...' does not exist!` naming the first missing file
is written to stderr. -/
theorem missing_input_file_exits_one (env : Engine) (argv : List CStr)
    (data0 : ApplicationContext) (cwd : CStr) (k : Nat)
    (hargs : (positional argv).length = 3 ∨ (positional argv).length = 4)
    (hcwd : env.cwd = some cwd)
    (hfits : ∀ i, i < MAX_SOURCES →
      (resolved_path cwd ((parse_command_line argv data0).data.source_paths i)).length
        < PATH_MAX)
    (hk : k < MAX_SOURCES)
    (hmissing : env.access
      (resolved_path cwd ((parse_command_line argv data0).data.source_paths k)) = false) :
    (main env argv data0).outcome = Outcome.returned 1
    ∧ (∀ element, Op.gst_element_set_state element GstState.PLAYING
        ∉ (main env argv data0).ops)
    ∧ ((∀ factory name, (env.gst_element_factory_make factory name).isSome = true) →
       (∀ name, (env.gst_pipeline_new name).isSome = true) →
       cwd.length < PATH_MAX →
        ∃ j, j ≤ k
          ∧ env.access
              (resolved_path cwd ((parse_command_line argv data0).data.source_paths j)) = false
          ∧ (∀ i, i < j → env.access
              (resolved_path cwd ((parse_command_line argv data0).data.source_paths i)) = true)
          ∧ Op.g_printerr ("Error: file '".toList
              ++ resolved_path cwd ((parse_command_line argv data0).data.source_paths j)
              ++ "' does not exist!\n".toList) ∈ (main env argv data0).ops) := by
  have hparse : (parse_command_line argv data0).code = 0 := by
    rcases hargs with h | h
    · exact (parse_not_streaming argv data0 h).1
    · exact (parse_streaming argv data0 h).1
  have hpaths : (create_elements env (parse_command_line argv data0).data).source_paths
      = (parse_command_line argv data0).data.source_paths := rfl
  have htmp : ∀ i, i < MAX_SOURCES →
      tmp_buf cwd ((parse_command_line argv data0).data.source_paths i)
        = resolved_path cwd ((parse_command_line argv data0).data.source_paths i) :=
    fun i hi => tmp_buf_of_fits _ _ (hfits i hi)
  have hloop := set_source_uris_missing env
    (create_elements env (parse_command_line argv data0).data) cwd MAX_SOURCES 0 k
    (Nat.zero_le _) (by omega) (by rw [hpaths, htmp k hk]; exact hmissing)
  have helements : (create_pipeline_elements env (parse_command_line argv data0).data).code
      ≠ 0 := by
    intro h0
    obtain ⟨_, _, _, cwd1, hc1, hu1, _⟩ := create_pipeline_elements_ok env _ h0
    have hsame : cwd1 = cwd := by
      have := getcwd_some env cwd1 PATH_MAX hc1
      rw [hcwd] at this
      exact (Option.some.inj this).symm
    subst hsame
    rw [hloop.1] at hu1
    cases hu1
  have hcreate := create_pipeline_code_of_elements env _ helements
  have hmain := main_of_create_failure env argv data0 hparse (by rw [hcreate.1]; decide)
  refine ⟨hmain.1, fun element hop => ?_, fun hmake hpipe hlen => ?_⟩
  · rw [hmain.2] at hop
    simp only [List.mem_append, List.mem_cons, List.mem_singleton, List.not_mem_nil,
      or_false] at hop
    rcases hop with ((((h | h) | h) | h) | h) | h
    · cases h
    · obtain ⟨_, h1⟩ := parse_command_line_ops _ _ _ h
      cases h1
    · rcases h with h | h | h | h | h <;> cases h
    · exact create_pipeline_no_set_state env _ _ _ h
    · cases h
    · unfold free_resources at h
      split at h
      · simp at h
      · simp at h
  · have hget : getcwd env PATH_MAX = some cwd := by
      unfold getcwd
      rw [hcwd]
      simp only [hlen, if_true]
    have hops := create_pipeline_elements_paths env (parse_command_line argv data0).data cwd
      (hpipe _) (ensure_inited_of_engine env _ hmake) hget (by rw [hloop.1]; decide)
    obtain ⟨_, j, _, hj2, hj3, hj4, hj5⟩ := hloop
    have hjlt : j < MAX_SOURCES := by omega
    rw [hpaths, htmp j hjlt] at hj3 hj5
    refine ⟨j, hj2, hj3, fun i hi => ?_, ?_⟩
    · have := hj4 i (Nat.zero_le _) hi
      rw [hpaths, htmp i (by omega)] at this
      exact this
    · rw [hmain.2, hcreate.2, hops]
      simp only [List.mem_append]
      exact Or.inl (Or.inl (Or.inr (Or.inl (Or.inr hj5))))

/-- C10 (amended), at the sample run on an engine where only `/home/user/a.webm` exists:
the second path, `/data/b.mp4`, is the first missing one. -/
theorem missing_input_file_exits_one_witness :
    (main sample_engine_missing_files sample_argv3 sample_uninit).outcome = Outcome.returned 1
    ∧ ∃ j, j ≤ 2
      ∧ Op.g_printerr ("Error: file '".toList
          ++ resolved_path "/home/user".toList
              ((parse_command_line sample_argv3 sample_uninit).data.source_paths j)
          ++ "' does not exist!\n".toList)
        ∈ (main sample_engine_missing_files sample_argv3 sample_uninit).ops :=
  have h := missing_input_file_exits_one sample_engine_missing_files sample_argv3 sample_uninit
    "/home/user".toList 2 (by decide) rfl
    (by
      intro i hi
      simp only [MAX_SOURCES] at hi
      interval_cases i <;> decide)
    (by decide) (by decide)
  ⟨h.1,
    (h.2.2 (fun _ _ => rfl) (fun _ => rfl) (by decide)).imp
      (fun _ hj => ⟨hj.1, hj.2.2.2⟩)⟩

/-! ## C11: the compositor layout -/

theorem unref_mixer_pads_no_placement (pads : Nat → GstPadPtr) :
    (unref_mixer_pads pads).filter Op.placement = [] := by
  rw [List.filter_eq_nil_iff]
  intro op hop
  simp only [unref_mixer_pads, List.mem_map] at hop
  obtain ⟨_, _, rfl⟩ := hop
  simp [Op.placement]

/-- C11. `setup_videomixer_layout` returns failure exactly when one of the
three requests for a compositor input pad is answered with `NULL`, and then it
assigns no placement. When the three pads are obtained it returns success and
the placements it assigns are, in this order: input 0 at `xpos` 0, `ypos` 0;
input 1 at `xpos` 640 (half of the width 1280), `ypos` 0; input 2 at `xpos` 320
(a quarter of the width), `ypos` 360 (half of the height 720). -/
theorem videomixer_layout_contract (env : Engine) (data : ApplicationContext) :
    ((setup_videomixer_layout env data).code ≠ 0 ↔
        ∃ i, i < MAX_SOURCES
          ∧ env.gst_element_get_request_pad data.videomixer "sink_%u".toList i = none)
    ∧ ((setup_videomixer_layout env data).code ≠ 0 →
        (setup_videomixer_layout env data).ops.filter Op.placement = [])
    ∧ ((∀ i, i < MAX_SOURCES →
          env.gst_element_get_request_pad data.videomixer "sink_%u".toList i ≠ none) →
        (setup_videomixer_layout env data).code = 0
        ∧ (setup_videomixer_layout env data).ops.filter Op.placement
          = [Op.g_object_set (env.gst_element_get_request_pad data.videomixer "sink_%u".toList 0)
               "xpos".toList (GValue.int 0),
             Op.g_object_set (env.gst_element_get_request_pad data.videomixer "sink_%u".toList 0)
               "ypos".toList (GValue.int 0),
             Op.g_object_set (env.gst_element_get_request_pad data.videomixer "sink_%u".toList 1)
               "xpos".toList (GValue.int 640),
             Op.g_object_set (env.gst_element_get_request_pad data.videomixer "sink_%u".toList 1)
               "ypos".toList (GValue.int 0),
             Op.g_object_set (env.gst_element_get_request_pad data.videomixer "sink_%u".toList 2)
               "xpos".toList (GValue.int 320),
             Op.g_object_set (env.gst_element_get_request_pad data.videomixer "sink_%u".toList 2)
               "ypos".toList (GValue.int 360)])
    ∧ (OUTPUT_VIDEO_WIDTH = 1280 ∧ OUTPUT_VIDEO_HEIGHT = 720
        ∧ OUTPUT_VIDEO_WIDTH / 2 = 640 ∧ OUTPUT_VIDEO_WIDTH / 4 = 320
        ∧ OUTPUT_VIDEO_HEIGHT / 2 = 360) := by
  have hex : (∃ i, i < MAX_SOURCES
      ∧ env.gst_element_get_request_pad data.videomixer "sink_%u".toList i = none)
      ↔ (env.gst_element_get_request_pad data.videomixer "sink_%u".toList 0 = none
        ∨ env.gst_element_get_request_pad data.videomixer "sink_%u".toList 1 = none
        ∨ env.gst_element_get_request_pad data.videomixer "sink_%u".toList 2 = none) := by
    constructor
    · rintro ⟨i, hi, h⟩
      simp only [MAX_SOURCES] at hi
      interval_cases i
      · exact Or.inl h
      · exact Or.inr (Or.inl h)
      · exact Or.inr (Or.inr h)
    · rintro (h | h | h)
      · exact ⟨0, by decide, h⟩
      · exact ⟨1, by decide, h⟩
      · exact ⟨2, by decide, h⟩
  have hall : (∀ i, i < MAX_SOURCES →
      env.gst_element_get_request_pad data.videomixer "sink_%u".toList i ≠ none)
      ↔ (env.gst_element_get_request_pad data.videomixer "sink_%u".toList 0 ≠ none
        ∧ env.gst_element_get_request_pad data.videomixer "sink_%u".toList 1 ≠ none
        ∧ env.gst_element_get_request_pad data.videomixer "sink_%u".toList 2 ≠ none) := by
    constructor
    · intro h
      exact ⟨h 0 (by decide), h 1 (by decide), h 2 (by decide)⟩
    · rintro ⟨h0, h1, h2⟩ i hi
      simp only [MAX_SOURCES] at hi
      interval_cases i
      · exact h0
      · exact h1
      · exact h2
  rw [hex, hall]
  refine ⟨?_, ?_, ?_, by decide⟩
  all_goals
    unfold setup_videomixer_layout
    simp only [MAX_SOURCES, request_mixer_pads]
    cases h0 : env.gst_element_get_request_pad data.videomixer "sink_%u".toList 0 <;>
    cases h1 : env.gst_element_get_request_pad data.videomixer "sink_%u".toList 1 <;>
    cases h2 : env.gst_element_get_request_pad data.videomixer "sink_%u".toList 2 <;>
    simp [List.filter_append, unref_mixer_pads_no_placement, layout_ops, Op.placement,
      Function.update, OUTPUT_VIDEO_WIDTH, OUTPUT_VIDEO_HEIGHT]

/-- C11, at the sample run (all three pads obtained: objects 1160, 1161, 1162)
and on an engine whose compositor refuses the second pad. -/
theorem videomixer_layout_contract_witness :
    (setup_videomixer_layout sample_engine sample_context).ops.filter Op.placement
      = [Op.g_object_set (some 1160) "xpos".toList (GValue.int 0),
         Op.g_object_set (some 1160) "ypos".toList (GValue.int 0),
         Op.g_object_set (some 1161) "xpos".toList (GValue.int 640),
         Op.g_object_set (some 1161) "ypos".toList (GValue.int 0),
         Op.g_object_set (some 1162) "xpos".toList (GValue.int 320),
         Op.g_object_set (some 1162) "ypos".toList (GValue.int 360)]
    ∧ (setup_videomixer_layout sample_engine_mixer_refuses sample_context).ops.filter
        Op.placement = [] :=
  ⟨((videomixer_layout_contract sample_engine sample_context).2.2.1
      (by
        intro i hi
        simp only [MAX_SOURCES] at hi
        interval_cases i <;> decide)).2,
    (videomixer_layout_contract sample_engine_mixer_refuses sample_context).2.1
      (((videomixer_layout_contract sample_engine_mixer_refuses sample_context).1).2
        ⟨1, by decide, by decide⟩)⟩

/-! ## C12: a message of an unexpected class -/

/-- C12 fails as stated: in the sample run, a message of a class other than
STATE_CHANGED, ERROR and END_OF_STREAM does not set `terminate`; the loop goes
on to read the end-of-stream message after it and the process returns 0. When
nothing follows the unexpected message the loop waits for ever and the process
does not return at all. -/
theorem unexpected_message_is_not_fatal :
    (handle_message (some 100) (sample_message GstMessageType.OTHER (some 2))).1 = false
    ∧ (bus_loop (some 100) sample_unexpected_bus).remaining = []
    ∧ (run_pipeline (sample_engine_with_bus sample_unexpected_bus) sample_context).outcome
        = Outcome.returned 0
    ∧ (main (sample_engine_with_bus sample_unexpected_bus) sample_argv3 sample_uninit).outcome
        = Outcome.returned 0
    ∧ (main (sample_engine_with_bus [some (sample_message GstMessageType.OTHER (some 2))])
        sample_argv3 sample_uninit).outcome = Outcome.blocked := by
  refine ⟨by decide, by decide, by decide, by decide, by decide⟩

/-- C12 (amended). A message whose class is none of STATE_CHANGED, ERROR and
END_OF_STREAM has no control effect: the loop writes
`Error: unexpected message received.` to stderr, releases the message and goes
on with the next bus result, so that whether the loop terminates, what it
leaves unread and what `run_pipeline` returns are the same as if the message
had not been delivered. -/
theorem unexpected_message_is_reported_and_skipped (pipeline : GstElementPtr)
    (msg : GstMessage) (rest : List (Option GstMessage))
    (hclass : msg.type = GstMessageType.OTHER) :
    handle_message pipeline msg
      = (false, [Op.g_printerr "Error: unexpected message received.\n".toList,
                 Op.gst_message_unref])
    ∧ (bus_loop pipeline (some msg :: rest)).terminated = (bus_loop pipeline rest).terminated
    ∧ (bus_loop pipeline (some msg :: rest)).remaining = (bus_loop pipeline rest).remaining
    ∧ (bus_loop pipeline (some msg :: rest)).ops
        = Op.gst_bus_timed_pop_filtered
          :: Op.g_printerr "Error: unexpected message received.\n".toList
          :: Op.gst_message_unref :: (bus_loop pipeline rest).ops
    ∧ (∀ (env1 env2 : Engine) (data : ApplicationContext),
        env1.set_state_playing = env2.set_state_playing →
        env1.bus = some msg :: env2.bus →
        (run_pipeline env1 data).outcome = (run_pipeline env2 data).outcome) := by
  have hhandle : handle_message pipeline msg
      = (false, [Op.g_printerr "Error: unexpected message received.\n".toList,
                 Op.gst_message_unref]) := by
    unfold handle_message
    rw [hclass]
  have hany : ∀ p, handle_message p msg
      = (false, [Op.g_printerr "Error: unexpected message received.\n".toList,
                 Op.gst_message_unref]) := by
    intro p
    unfold handle_message
    rw [hclass]
  have hloop : ∀ p, (bus_loop p (some msg :: rest)).terminated = (bus_loop p rest).terminated
      ∧ (bus_loop p (some msg :: rest)).remaining = (bus_loop p rest).remaining
      ∧ (bus_loop p (some msg :: rest)).ops
        = Op.gst_bus_timed_pop_filtered
          :: Op.g_printerr "Error: unexpected message received.\n".toList
          :: Op.gst_message_unref :: (bus_loop p rest).ops := by
    intro p
    rw [bus_loop]
    simp only [hany p, Bool.false_eq_true, if_false, List.cons_append, List.nil_append,
      and_self]
  refine ⟨hhandle, (hloop pipeline).1, (hloop pipeline).2.1, (hloop pipeline).2.2, ?_⟩
  intro env1 env2 data hplay hbus
  have hterm : (bus_loop data.pipeline env1.bus).terminated
      = (bus_loop data.pipeline env2.bus).terminated := by
    rw [hbus, bus_loop]
    simp only [hany data.pipeline, Bool.false_eq_true, if_false]
  unfold run_pipeline
  simp only [hplay, hterm]
  split
  · rfl
  · split <;> rfl

/-- C12 (amended), at the sample bus: the unexpected message before
end-of-stream leaves the loop running. -/
theorem unexpected_message_is_reported_and_skipped_witness :
    (bus_loop (some 100) sample_unexpected_bus).terminated
      = (bus_loop (some 100) [some (sample_message GstMessageType.EOS (some 100))]).terminated :=
  (unexpected_message_is_reported_and_skipped (some 100)
    (sample_message GstMessageType.OTHER (some 2))
    [some (sample_message GstMessageType.EOS (some 100))] rfl).2.1

/-! ## C13: cleanup on every exit path -/

theorem handle_message_no_set_state (pipeline : GstElementPtr) (msg : GstMessage)
    (element : GstElementPtr) (state : GstState) :
    Op.gst_element_set_state element state ∉ (handle_message pipeline msg).2 := by
  unfold handle_message
  cases msg.type
  · simp
  · simp
  · simp only
    split <;> simp
  · simp

theorem bus_loop_no_set_state (pipeline : GstElementPtr) (bus : List (Option GstMessage))
    (element : GstElementPtr) (state : GstState) :
    Op.gst_element_set_state element state ∉ (bus_loop pipeline bus).ops := by
  induction bus with
  | nil => simp [bus_loop]
  | cons m bus ih =>
    cases m with
    | none => simp [bus_loop, ih]
    | some msg =>
      have h := handle_message_no_set_state pipeline msg element state
      unfold bus_loop
      simp only
      split
      · simp [h]
      · simp [h, ih]

theorem run_pipeline_set_state (env : Engine) (data : ApplicationContext)
    (element : GstElementPtr) (state : GstState)
    (hop : Op.gst_element_set_state element state ∈ (run_pipeline env data).ops) :
    element = data.pipeline ∧ state = GstState.PLAYING := by
  have hloop := bus_loop_no_set_state data.pipeline env.bus element state
  unfold run_pipeline at hop
  split at hop
  · simp only [List.mem_cons, List.mem_singleton, List.not_mem_nil, or_false] at hop
    rcases hop with h | h
    · injection h with h1 h2
      exact ⟨h1, h2⟩
    · cases h
  · simp only at hop
    split at hop
    · simp only [List.mem_append, List.mem_cons, List.mem_singleton, List.not_mem_nil,
        or_false] at hop
      rcases hop with ((h | h) | h) | h
      · injection h with h1 h2
        exact ⟨h1, h2⟩
      · cases h
      · exact absurd h hloop
      · cases h
    · simp only [List.mem_append, List.mem_cons, List.mem_singleton, List.not_mem_nil,
        or_false] at hop
      rcases hop with (h | h) | h
      · injection h with h1 h2
        exact ⟨h1, h2⟩
      · cases h
      · exact absurd h hloop

/-- What holds of the cleanup on every path on which `main` returns: the
actions of `main` end with those of `free_resources` on the context as it then
is, and nothing before them forces any element to the NULL state. Once the
command line is accepted that context holds the result of `gst_pipeline_new`. -/
theorem main_returns_through_free_resources (env : Engine) (argv : List CStr)
    (data : ApplicationContext) (code : Int)
    (hret : (main env argv data).outcome = Outcome.returned code) :
    (∃ before,
      (main env argv data).ops
        = before ++ free_resources
            (if (parse_command_line argv data).code ≠ 0 then data
             else create_elements env (parse_command_line argv data).data)
      ∧ ∀ element, Op.gst_element_set_state element GstState.NULL ∉ before)
    ∧ ((parse_command_line argv data).code = 0 →
        (create_elements env (parse_command_line argv data).data).pipeline
          = env.gst_pipeline_new "twitch-pipeline".toList) := by
  refine ⟨?_, fun _ => rfl⟩
  have hparsed : ∀ element, Op.gst_element_set_state element GstState.NULL
      ∉ (parse_command_line argv data).ops := by
    intro element h
    obtain ⟨_, h1⟩ := parse_command_line_ops _ _ _ h
    cases h1
  by_cases hp : (parse_command_line argv data).code = 0
  · have hcreated := fun element =>
      create_pipeline_no_set_state env (parse_command_line argv data).data element
        GstState.NULL
    by_cases hc : (create_pipeline env (parse_command_line argv data).data).code = 0
    · unfold main at hret ⊢
      simp only [hp, hc, ne_eq, not_true_eq_false, if_false, create_pipeline_data] at hret ⊢
      have hrun := fun element =>
        run_pipeline_set_state env (create_elements env (parse_command_line argv data).data)
          element GstState.NULL
      cases hout : (run_pipeline env
          (create_elements env (parse_command_line argv data).data)).outcome with
      | blocked =>
        rw [hout] at hret
        cases hret
      | returned c =>
        simp only [hout]
        by_cases hc0 : c = 0
        · simp only [hc0, ne_eq, not_true_eq_false, if_false]
          refine ⟨_, rfl, fun element hmem => ?_⟩
          simp only [List.mem_append, List.mem_cons, List.mem_singleton, List.not_mem_nil,
            or_false] at hmem
          rcases hmem with (((((h | h) | h) | h) | h) | h) | h
          · cases h
          · exact hparsed element h
          · rcases h with h | h | h | h | h <;> cases h
          · exact hcreated element h
          · rcases h with h | h <;> cases h
          · exact absurd (hrun element h).2 (by decide)
          · cases h
        · simp only [hc0, ne_eq, not_false_eq_true, if_true]
          refine ⟨_, rfl, fun element hmem => ?_⟩
          simp only [List.mem_append, List.mem_cons, List.mem_singleton, List.not_mem_nil,
            or_false] at hmem
          rcases hmem with (((((h | h) | h) | h) | h) | h) | h
          · cases h
          · exact hparsed element h
          · rcases h with h | h | h | h | h <;> cases h
          · exact hcreated element h
          · rcases h with h | h <;> cases h
          · exact absurd (hrun element h).2 (by decide)
          · cases h
    · have hmain := main_of_create_failure env argv data hp hc
      rw [hmain.2, create_pipeline_data]
      simp only [hp, ne_eq, not_true_eq_false, if_false]
      refine ⟨_, rfl, fun element hmem => ?_⟩
      simp only [List.mem_append, List.mem_cons, List.mem_singleton, List.not_mem_nil,
        or_false] at hmem
      rcases hmem with (((h | h) | h) | h) | h
      · cases h
      · exact hparsed element h
      · rcases h with h | h | h | h | h <;> cases h
      · exact hcreated element h
      · cases h
  · unfold main
    simp only [hp, ne_eq, not_false_eq_true, if_true]
    have hdata : (parse_command_line argv data).data = data := by
      unfold parse_command_line at hp ⊢
      simp only at hp ⊢
      split
      · rfl
      · rename_i h
        rw [if_neg h] at hp
        split at hp <;> exact absurd rfl hp
    rw [hdata]
    refine ⟨_, rfl, fun element hmem => ?_⟩
    simp only [List.mem_append, List.mem_cons, List.mem_singleton, List.not_mem_nil,
      or_false, print_usage] at hmem
    rcases hmem with (h | h) | h
    · cases h
    · exact hparsed element h
    · cases h

/-- C13 (the code departs from the claim). In the sample run on an engine
whose compositor refuses its second input pad, `setup_videomixer_layout` fails
and its exit loop releases the entries of its pad array, of which the third was
never assigned: when that entry holds the address of the pipeline (object 100),
the pipeline is released there and again by `free_resources`, twice in all.
`main` returns 1 and its last two actions are those of `free_resources`. On the
argument-error path `free_resources` likewise acts on the never-assigned
`data.pipeline` (here 77), though no pipeline was created. -/
theorem stale_pad_entry_releases_pipeline_twice :
    (parse_command_line sample_argv3 sample_uninit).code = 0
    ∧ sample_engine_mixer_refuses.gst_pipeline_new "twitch-pipeline".toList = some 100
    ∧ sample_context.pipeline = some 100
    ∧ (setup_videomixer_layout sample_engine_mixer_refuses sample_context).code = 1
    ∧ (setup_videomixer_layout sample_engine_mixer_refuses sample_context).ops
        = [Op.gst_element_get_request_pad (some 16) "sink_%u".toList 0,
           Op.g_print "Requested pad from videomixer: sink\n".toList,
           Op.gst_element_get_request_pad (some 16) "sink_%u".toList 1,
           Op.g_printerr "Error: failed to get pad 1 from video mixer.\n".toList,
           Op.gst_object_unref (some 1160),
           Op.gst_object_unref (some 100)]
    ∧ (main sample_engine_mixer_refuses sample_argv3 sample_uninit).outcome
        = Outcome.returned 1
    ∧ (main sample_engine_mixer_refuses sample_argv3 sample_uninit).ops.count
        (Op.gst_object_unref (some 100)) = 2
    ∧ (main sample_engine_mixer_refuses sample_argv3 sample_uninit).ops.reverse.take 2
        = [Op.gst_object_unref (some 100),
           Op.gst_element_set_state (some 100) GstState.NULL]
    ∧ (main sample_engine sample_argv2 sample_uninit).ops
        = [Op.g_print "Parsing command line...\n".toList, Op.g_print usage_text,
           Op.gst_element_set_state (some 77) GstState.NULL,
           Op.gst_object_unref (some 77)] := by
  refine ⟨by decide, by decide, by decide, by decide, by decide, by decide, by decide,
    by decide, rfl⟩

end TwitchStreamer
